import Mathlib

/-!
Verification development for the `ConvolvedFluxes` class of the sedfitter
repository (src/sedfitter/convolved_fluxes/convolved_fluxes.py).

The Python class is shallowly embedded: numpy/astropy arrays become Lean
lists of rationals, `astropy.units` quantities become data paired with a
unit tag, property setters become functions on the record returning
`Except String` (raised exceptions become `.error msg` with the source's
message), and the FITS file produced by `write` becomes an explicit record.
-/

namespace Sedfitter

/-- Modelled from the spec: the units-and-quantities collaborator
(`astropy.units`, an external library assumed provided in section 4 of the
spec) is represented by unit tags.  `unitDim` is the physical dimension
class of a tag: 0 = length, 1 = monochromatic flux density, 2 = luminosity. -/
inductive PhysUnit where
  | micron
  | m
  | au
  | pc
  | mJy
  | Jy
  | ergPerS
deriving DecidableEq, Repr

/-- Dimension class of a unit tag (see `PhysUnit`). -/
def unitDim : PhysUnit → ℕ
  | .micron => 0
  | .m => 0
  | .au => 0
  | .pc => 0
  | .mJy => 1
  | .Jy => 1
  | .ergPerS => 2

/-- Modelled from the spec: conversion scale of a unit tag to the base unit
of its dimension class (metres for lengths, Jy for flux densities).
Converting a value `x` carried in unit `u` into unit `v` of the same
dimension multiplies it by `uscale u / uscale v`. -/
def uscale : PhysUnit → ℚ
  | .micron => 1 / 1000000
  | .m => 1
  | .au => 149597870700
  | .pc => 30856775814913673
  | .mJy => 1 / 1000
  | .Jy => 1
  | .ergPerS => 1

/-- `value.unit.is_equivalent(u.m)` in the source. -/
def isLengthUnit (u : PhysUnit) : Bool := decide (unitDim u = 0)

/-- `value.unit.is_equivalent(u.erg/u.s) or ... or value.unit.is_equivalent(u.Jy)`
in the source: the unit is a luminosity, flux or flux-density unit. -/
def isFluxUnit (u : PhysUnit) : Bool := decide (unitDim u = 1) || decide (unitDim u = 2)

/-- A scalar quantity: value paired with a unit tag. -/
structure QtyS where
  val : ℚ
  unit : PhysUnit
deriving DecidableEq, Repr

/-- A 1-D array quantity. -/
structure Qty1 where
  data : List ℚ
  unit : PhysUnit
deriving DecidableEq, Repr

/-- A 2-D array quantity (list of rows). -/
structure Qty2 where
  data : List (List ℚ)
  unit : PhysUnit
deriving DecidableEq, Repr

/-- The `ConvolvedFluxes` instance state.  Python attributes that may be
absent from the instance dictionary (`radius_sigma_50`, `radius_cumul_99`,
probed with try/except AttributeError in the source) are `Option` fields,
`none` meaning the attribute was never assigned. -/
structure ConvolvedFluxes where
  wavelength : Option QtyS := none
  model_names : Option (List String) := none
  apertures : Option Qty1 := none
  flux : Option Qty2 := none
  error : Option Qty2 := none
  radius_sigma_50 : Option Qty1 := none
  radius_cumul_99 : Option Qty1 := none
deriving DecidableEq, Repr

/-- `n_models` property: `None` until `model_names` is set, else its length. -/
def ConvolvedFluxes.n_models (c : ConvolvedFluxes) : Option ℕ :=
  c.model_names.map List.length

/-- `n_ap` property: 1 when `apertures` is unset, else the aperture count. -/
def ConvolvedFluxes.n_ap (c : ConvolvedFluxes) : ℕ :=
  match c.apertures with
  | none => 1
  | some a => a.data.length

/-- Modelled from the spec: the validation helper
`sedfitter.utils.validator.validate_array` (repository code that is not
under src/; the spec describes it as "array shape/domain validation with
uniform error reporting").  For a 1-D array with `domain='positive'` it
checks strict positivity and returns the array itself (no copy, so the
caller's buffer stays shared — the spec's in-place clamp in `interpolate`
relies on this). -/
def validate_array_1d (name : String) (value : List ℚ) (positive : Bool) :
    Except String (List ℚ) :=
  if positive && !(value.all (fun x => decide (0 < x))) then
    .error (name ++ " should be positive")
  else
    .ok value

/-- Modelled from the spec: `validate_array` for a 2-D array with a required
shape `(rows, cols)`. -/
def validate_array_2d (name : String) (value : List (List ℚ)) (rows cols : ℕ) :
    Except String (List (List ℚ)) :=
  if value.length = rows ∧ value.all (fun r => decide (r.length = cols)) then
    .ok value
  else
    .error (name ++ " has incorrect shape")

/-- The `wavelength` property setter. -/
def ConvolvedFluxes.set_wavelength (c : ConvolvedFluxes) (value : Option QtyS) :
    Except String ConvolvedFluxes :=
  match value with
  | none => .ok { c with wavelength := none }
  | some q =>
    if isLengthUnit q.unit then
      -- a `QtyS` is scalar by construction, so the `isscalar` check passes
      if 0 < q.val then
        .ok { c with wavelength := some q }
      else
        .error "wavelength should be strictly positive"
    else
      .error "central wavelength should be given as a Quantity object with units of distance"

/-- The `model_names` property setter.  A `List String` is 1-D by
construction, so `validate_array(..., ndim=1)` always succeeds. -/
def ConvolvedFluxes.set_model_names (c : ConvolvedFluxes) (value : Option (List String)) :
    Except String ConvolvedFluxes :=
  .ok { c with model_names := value }

/-- The `apertures` property setter. -/
def ConvolvedFluxes.set_apertures (c : ConvolvedFluxes) (value : Option Qty1) :
    Except String ConvolvedFluxes :=
  match value with
  | none => .ok { c with apertures := none }
  | some q =>
    if isLengthUnit q.unit then
      (validate_array_1d "apertures" q.data true).map
        (fun d => { c with apertures := some ⟨d, q.unit⟩ })
    else
      .error "apertures should be given as a Quantity object with units of length"

/-- The `flux` property setter. -/
def ConvolvedFluxes.set_flux (c : ConvolvedFluxes) (value : Option Qty2) :
    Except String ConvolvedFluxes :=
  match value with
  | none => .ok { c with flux := none }
  | some q =>
    match c.model_names with
    | none => .error "model_names has not been set"
    | some mn =>
      if isFluxUnit q.unit then
        (validate_array_2d "flux" q.data mn.length c.n_ap).map
          (fun d => { c with flux := some ⟨d, q.unit⟩ })
      else
        .error "fluxes should be given as a Quantity object with units of luminosity, flux, or monochromatic flux density"

/-- The `error` property setter. -/
def ConvolvedFluxes.set_error (c : ConvolvedFluxes) (value : Option Qty2) :
    Except String ConvolvedFluxes :=
  match value with
  | none => .ok { c with error := none }
  | some q =>
    match c.model_names with
    | none => .error "model_names has not been set"
    | some mn =>
      if isFluxUnit q.unit then
        (validate_array_2d "error" q.data mn.length c.n_ap).map
          (fun d => { c with error := some ⟨d, q.unit⟩ })
      else
        .error "flux errors should be given as a Quantity object with units of luminosity, flux, or monochromatic flux density"

/-- `np.max` of a 1-D array (the arrays it is applied to are nonempty). -/
def npMax : List ℚ → ℚ
  | [] => 0
  | h :: t => t.foldl max h

/-- `np.min` of a 1-D array. -/
def npMin : List ℚ → ℚ
  | [] => 0
  | h :: t => t.foldl min h

/-- Linear interpolation value assigned by the `find_radius_cumul` loop body
for aperture pair `(ia, ia+1)`:
`(required - flux[ia]) / (flux[ia+1] - flux[ia]) * (apertures[ia+1] - apertures[ia]) + apertures[ia]`. -/
def interpVal (aps fl : List ℚ) (required : ℚ) (ia : ℕ) : ℚ :=
  (required - fl.getD ia 0) / (fl.getD (ia + 1) 0 - fl.getD ia 0) *
    (aps.getD (ia + 1) 0 - aps.getD ia 0) + aps.getD ia 0

/-- The mask of the `find_radius_cumul` loop for aperture pair `(ia, ia+1)`:
`(required >= flux[ia]) & (required < flux[ia+1])`. -/
def bracketB (fl : List ℚ) (required : ℚ) (ia : ℕ) : Bool :=
  decide (fl.getD ia 0 ≤ required) && decide (required < fl.getD (ia + 1) 0)

/-- Core of `find_radius_cumul` for one model row, as a function of the
`required` value: the innermost-to-outermost interpolation loop (each
matching pair overwriting the previous assignment into the zero-initialized
radius), then the two boundary clamp assignments, in source order. -/
def cumul_core (aps fl : List ℚ) (required : ℚ) : ℚ :=
  let n := aps.length
  let r0 := (List.range (n - 1)).foldl
    (fun r ia => if bracketB fl required ia then interpVal aps fl required ia else r) 0
  let r1 := if required < fl.getD 0 0 then aps.getD 0 0 else r0
  if fl.getD (n - 1) 0 ≤ required then aps.getD (n - 1) 0 else r1

/-- `find_radius_cumul` for one model row: `required = fraction * flux[-1]`. -/
def cumul_row (aps fl : List ℚ) (fraction : ℚ) : ℚ :=
  cumul_core aps fl (fraction * fl.getD (aps.length - 1) 0)

/-- `find_radius_cumul(self, fraction)`: per-model cumulative-flux radius.
The result array is created as `np.zeros(n_models) * u.au`; each assigned
entry is a length in aperture units converted into au on assignment, and
entries never assigned stay 0.  When `apertures` is `None` the zero vector
is returned.  (The source dereferences `model_names`/`flux` unconditionally
and would raise on an unset attribute; those branches return an empty
array here and are unreachable for the valid instances the claims are
about.) -/
def ConvolvedFluxes.find_radius_cumul (c : ConvolvedFluxes) (fraction : ℚ) : Qty1 :=
  match c.model_names with
  | none => ⟨[], .au⟩
  | some mn =>
    match c.apertures with
    | none => ⟨mn.map (fun _ => 0), .au⟩
    | some a =>
      match c.flux with
      | none => ⟨[], .au⟩
      | some f =>
        ⟨(List.range mn.length).map
            (fun i => cumul_row a.data (f.data.getD i []) fraction *
              (uscale a.unit / uscale .au)),
          .au⟩

/-- The annulus surface-brightness array of `find_radius_sigma` for one row:
`sigma[0] = flux[0] / apertures[0]**2` and, for `i ≥ 1`,
`sigma[i] = (flux[i] - flux[i-1]) / (apertures[i]**2 - apertures[i-1]**2)`. -/
def sigma_row (aps fl : List ℚ) : List ℚ :=
  (List.range aps.length).map (fun i =>
    if i = 0 then fl.getD 0 0 / (aps.getD 0 0) ^ 2
    else (fl.getD i 0 - fl.getD (i - 1) 0) /
      ((aps.getD i 0) ^ 2 - (aps.getD (i - 1) 0) ^ 2))

/-- `find_radius_sigma` for one model row: the outermost-to-innermost scan
(assigning only while the radius still holds the zero sentinel), followed by
the unconditional last-aperture assignment for rows whose outermost annulus
brightness exceeds the threshold. -/
def sigma_radius_row (aps fl : List ℚ) (fraction : ℚ) : ℚ :=
  let n := aps.length
  let sigma := sigma_row aps fl
  let maximum := npMax sigma
  let r0 := ((List.range (n - 1)).reverse).foldl
    (fun r ia =>
      if fraction * maximum < sigma.getD ia 0 ∧ r = 0 then
        (sigma.getD ia 0 - fraction * maximum) /
          (sigma.getD ia 0 - sigma.getD (ia + 1) 0) *
          (aps.getD (ia + 1) 0 - aps.getD ia 0) + aps.getD ia 0
      else r) 0
  if fraction * maximum < sigma.getD (n - 1) 0 then aps.getD (n - 1) 0 else r0

/-- `find_radius_sigma(self, fraction)`: per-model fractional surface
brightness radius, in au (same result-array convention as
`find_radius_cumul`; the source dereferences `apertures` and `flux`
unconditionally, so the unset branches are unreachable for valid callers). -/
def ConvolvedFluxes.find_radius_sigma (c : ConvolvedFluxes) (fraction : ℚ) : Qty1 :=
  match c.model_names, c.apertures, c.flux with
  | some mn, some a, some f =>
    ⟨(List.range mn.length).map
        (fun i => sigma_radius_row a.data (f.data.getD i []) fraction *
          (uscale a.unit / uscale .au)),
      .au⟩
  | _, _, _ => ⟨[], .au⟩

/-- A FITS binary-table column holding the flux (or flux error) data:
either a flat vector (`ndim == 1`) or a matrix.  `write` always emits the
in-memory 2-D matrix; `read` handles both forms. -/
inductive ColData where
  | one (v : List ℚ)
  | two (m : List (List ℚ))
deriving DecidableEq, Repr

/-- The `CONVOLVED FLUXES` binary-table HDU: mandatory columns
`MODEL_NAME`, `TOTAL_FLUX`, `TOTAL_FLUX_ERR` (with their recorded units)
and the optional derived-radius columns. -/
structure ConvTable where
  model_name : List String
  total_flux : ColData
  total_flux_unit : PhysUnit
  total_flux_err : ColData
  total_flux_err_unit : PhysUnit
  radius_sigma_50 : Option Qty1 := none
  radius_cumul_99 : Option Qty1 := none
deriving DecidableEq, Repr

/-- The FITS file written by `write` / consumed by `read`: primary header
(`FILTWAV` in micron, `NMODELS`, `NAP`), the `CONVOLVED FLUXES` table, and
the optional `APERTURES` table (column `APERTURE` with its recorded unit). -/
structure FitsFile where
  filtwav : Option ℚ := none
  nmodels : Option ℕ := none
  nap : ℕ := 1
  convolved : ConvTable
  aperturesHDU : Option Qty1 := none
deriving DecidableEq, Repr

/-- `write(self, filename)`.  Returns `none` when `model_names`, `flux` or
`error` is unset (the source would raise while building the table).  When
apertures are defined the two derived radius columns are computed at write
time via `find_radius_sigma(0.50)` and `find_radius_cumul(0.99)` (both in
au) and the `APERTURES` HDU is emitted; every column carries its unit. -/
def ConvolvedFluxes.write (c : ConvolvedFluxes) : Option FitsFile :=
  match c.model_names, c.flux, c.error with
  | some mn, some f, some e =>
    let radii : Option (Qty1 × Qty1) :=
      match c.apertures with
      | none => none
      | some _ => some (c.find_radius_sigma (1 / 2), c.find_radius_cumul (99 / 100))
    some
      { filtwav := c.wavelength.map (fun w => w.val * uscale w.unit / uscale .micron)
        nmodels := some mn.length
        nap := c.n_ap
        convolved :=
          { model_name := mn
            total_flux := .two f.data
            total_flux_unit := f.unit
            total_flux_err := .two e.data
            total_flux_err_unit := e.unit
            radius_sigma_50 := radii.map Prod.fst
            radius_cumul_99 := radii.map Prod.snd }
        aperturesHDU := c.apertures }
  | _, _, _ => none

/-- `read(cls, filename)`.  Mirrors the source line by line: wavelength from
`FILTWAV` if present; apertures from the `APERTURES` HDU if present
(`except KeyError: pass`); model names; flux and error columns, reshaping a
flat column into an `(N, 1)` matrix when `n_ap == 1` (a flat column with
`n_ap > 1` fails the 2-D validation in the setter, modelled as the same
error raised here); finally the two derived radius columns, assigned
verbatim if present — note the source attaches `tc['RADIUS_SIGMA_50'].unit`
to **both** radius attributes — and skipped from the first missing column
on (`except KeyError: pass`). -/
def ConvolvedFluxes.read (f : FitsFile) : Except String ConvolvedFluxes := do
  let conv : ConvolvedFluxes := {}
  let conv ← conv.set_wavelength (f.filtwav.map (fun w => ⟨w, .micron⟩))
  let conv ←
    match f.aperturesHDU with
    | none => pure conv
    | some a => conv.set_apertures (some a)
  let conv ← conv.set_model_names (some f.convolved.model_name)
  let fluxData : List (List ℚ) ←
    match f.convolved.total_flux with
    | .one v =>
      if conv.n_ap = 1 then pure (v.map (fun x => [x]))
      else .error "flux has incorrect shape"
    | .two mtx => pure mtx
  let conv ← conv.set_flux (some ⟨fluxData, f.convolved.total_flux_unit⟩)
  let errData : List (List ℚ) ←
    match f.convolved.total_flux_err with
    | .one v =>
      if conv.n_ap = 1 then pure (v.map (fun x => [x]))
      else .error "error has incorrect shape"
    | .two mtx => pure mtx
  let conv ← conv.set_error (some ⟨errData, f.convolved.total_flux_err_unit⟩)
  let conv :=
    match f.convolved.radius_sigma_50 with
    | none => conv
    | some r50 =>
      let conv := { conv with radius_sigma_50 := some ⟨r50.data, r50.unit⟩ }
      match f.convolved.radius_cumul_99 with
      | none => conv
      | some r99 => { conv with radius_cumul_99 := some ⟨r99.data, r50.unit⟩ }
  pure conv

/-- Modelled from the spec: the `scipy.interpolate.interp1d` collaborator —
standard piecewise-linear interpolation on sorted nodes.  The query points
`interpolate` produces are always inside the node range (after the clamp
and the minimum check). -/
def interp_pts : List (ℚ × ℚ) → ℚ → ℚ
  | (x0, y0) :: (x1, y1) :: rest, q =>
    if q ≤ x1 then y0 + (q - x0) * (y1 - y0) / (x1 - x0)
    else interp_pts ((x1, y1) :: rest) q
  | _, _ => 0

/-- `interp1d(xs, row)(q)` for one model row. -/
def interp_row (xs row : List ℚ) (q : ℚ) : ℚ :=
  interp_pts (xs.zip row) q

/-- `np.repeat(m, k)`: flatten the matrix and repeat each element `k`
times. -/
def np_repeat (m : List (List ℚ)) (k : ℕ) : List ℚ :=
  m.flatten.flatMap (fun x => List.replicate k x)

/-- `.reshape(n, l)` of a flat vector into `n` rows of length `l`. -/
def np_reshape2 : ℕ → ℕ → List ℚ → List (List ℚ)
  | 0, _, _ => []
  | n + 1, l, flat => flat.take l :: np_reshape2 n l (flat.drop l)

/-- The best-effort derived-radius copy at the end of `interpolate`:
`c.radius_sigma_50 = self.radius_sigma_50[:]` then
`c.radius_cumul_99 = self.radius_cumul_99[:]` inside one
`try/except AttributeError`, so a missing first attribute skips both and a
missing second attribute still keeps the first assignment. -/
def copyRadii (self c : ConvolvedFluxes) : ConvolvedFluxes :=
  match self.radius_sigma_50 with
  | none => c
  | some r50 =>
    let c := { c with radius_sigma_50 := some r50 }
    match self.radius_cumul_99 with
    | none => c
    | some r99 => { c with radius_cumul_99 := some r99 }

/-- `interpolate(self, apertures)`.  The caller's aperture buffer is
returned alongside the new instance: `c.apertures = apertures[:]` is a
numpy view, so the in-place clamp `apertures[c.apertures > max] = max`
mutates the caller's buffer and `c.apertures` together (the spec documents
this aliasing as a deliberate side effect).  Unit-aware comparisons and
assignments use the conversion scales.  The unreachable arms for unset
source attributes (the source would raise an AttributeError/TypeError
there) return an error. -/
def ConvolvedFluxes.interpolate (self : ConvolvedFluxes) (apertures : Qty1) :
    Except String (ConvolvedFluxes × Qty1) := do
  let c : ConvolvedFluxes := {}
  let c ← c.set_wavelength self.wavelength
  let c ← c.set_apertures (some apertures)
  let c ← c.set_model_names self.model_names
  if 1 < self.n_ap then
    match self.apertures, self.flux, self.error with
    | some sa, some sf, some se =>
      let smax := npMax sa.data
      -- If any apertures are larger than the defined max, reset to max
      -- (in place, through the shared view).
      let buf :=
        if apertures.data.any
            (fun x => decide (smax * uscale sa.unit < x * uscale apertures.unit)) then
          apertures.data.map (fun x =>
            if smax * uscale sa.unit < x * uscale apertures.unit then
              smax * uscale sa.unit / uscale apertures.unit
            else x)
        else apertures.data
      let c := { c with apertures := some ⟨buf, apertures.unit⟩ }
      -- If any apertures are smaller than the defined min, raise error.
      if buf.any
          (fun x => decide (x * uscale apertures.unit < npMin sa.data * uscale sa.unit)) then
        .error "Aperture(s) requested too small"
      else
        let queries := buf.map (fun x => x * uscale apertures.unit / uscale sa.unit)
        let c ← c.set_flux
          (some ⟨sf.data.map (fun row => queries.map (interp_row sa.data row)), sf.unit⟩)
        let c ← c.set_error
          (some ⟨se.data.map (fun row => queries.map (interp_row sa.data row)), se.unit⟩)
        pure (copyRadii self c, ⟨buf, apertures.unit⟩)
    | _, _, _ => .error "attribute not set"
  else
    match self.flux, self.error with
    | some sf, some se =>
      let nm := (c.n_models).getD 0
      let l := apertures.data.length
      let c ← c.set_flux
        (some ⟨np_reshape2 nm l (np_repeat sf.data l), sf.unit⟩)
      let c ← c.set_error
        (some ⟨np_reshape2 nm l (np_repeat se.data l), se.unit⟩)
      pure (copyRadii self c, apertures)
    | _, _ => .error "attribute not set"

/-- Unit-aware equality of two scalar quantities (`==` on astropy
quantities): same dimension class and equal values after conversion. -/
def qtySEqB (a b : Option QtyS) : Bool :=
  match a, b with
  | none, none => true
  | some x, some y =>
    decide (unitDim x.unit = unitDim y.unit) &&
      decide (x.val * uscale x.unit = y.val * uscale y.unit)
  | _, _ => false

/-- Unit-aware `np.all(a == b)` for optional 1-D quantities. -/
def qty1EqB (a b : Option Qty1) : Bool :=
  match a, b with
  | none, none => true
  | some x, some y =>
    decide (unitDim x.unit = unitDim y.unit) &&
      decide (x.data.length = y.data.length) &&
      (x.data.zip y.data).all
        (fun p => decide (p.1 * uscale x.unit = p.2 * uscale y.unit))
  | _, _ => false

/-- Unit-aware `np.all(a == b)` for optional 2-D quantities. -/
def qty2EqB (a b : Option Qty2) : Bool :=
  match a, b with
  | none, none => true
  | some x, some y =>
    decide (unitDim x.unit = unitDim y.unit) &&
      decide (x.data.length = y.data.length) &&
      (x.data.zip y.data).all (fun rows =>
        decide (rows.1.length = rows.2.length) &&
        (rows.1.zip rows.2).all
          (fun p => decide (p.1 * uscale x.unit = p.2 * uscale y.unit)))
  | _, _ => false

/-- `__eq__`: wavelength, model_names, apertures, flux and error must all be
equal element-wise (unit-aware); derived radii are not compared. -/
def ConvolvedFluxes.eqB (c₁ c₂ : ConvolvedFluxes) : Bool :=
  qtySEqB c₁.wavelength c₂.wavelength &&
    decide (c₁.model_names = c₂.model_names) &&
    qty1EqB c₁.apertures c₂.apertures &&
    qty2EqB c₁.flux c₂.flux &&
    qty2EqB c₁.error c₂.error

/-- An instance as produced by valid setter calls: wavelength (if set) a
positive scalar length, apertures (if set) positive lengths, model names
set, flux and error set with a flux-dimension unit and shape
`(n_models, n_ap)`. -/
def validCF (c : ConvolvedFluxes) : Bool :=
  (match c.wavelength with
   | none => true
   | some w => isLengthUnit w.unit && decide (0 < w.val)) &&
  (match c.apertures with
   | none => true
   | some a => isLengthUnit a.unit && a.data.all (fun x => decide (0 < x))) &&
  (match c.model_names, c.flux, c.error with
   | some mn, some f, some e =>
     isFluxUnit f.unit && decide (f.data.length = mn.length) &&
       f.data.all (fun r => decide (r.length = c.n_ap)) &&
     (isFluxUnit e.unit && decide (e.data.length = mn.length) &&
       e.data.all (fun r => decide (r.length = c.n_ap)))
   | _, _, _ => false)

/-- Bool form of "the entries are pairwise non-decreasing" over `getD`. -/
def nonDecrB (l : List ℚ) : Bool :=
  (List.range (l.length - 1)).all (fun i => decide (l.getD i 0 ≤ l.getD (i + 1) 0))

/-- Bool form of "the entries are pairwise strictly increasing" over `getD`. -/
def strictIncrB (l : List ℚ) : Bool :=
  (List.range (l.length - 1)).all (fun i => decide (l.getD i 0 < l.getD (i + 1) 0))

/-! ### Helper lemmas -/

lemma uscale_pos (u : PhysUnit) : 0 < uscale u := by
  cases u <;> norm_num [uscale]

lemma uscale_ne_zero (u : PhysUnit) : uscale u ≠ 0 :=
  ne_of_gt (uscale_pos u)

lemma zip_self {α : Type} (l : List α) : l.zip l = l.map (fun x => (x, x)) := by
  induction l with
  | nil => rfl
  | cons a t ih => simp [List.zip_cons_cons, ih]

lemma all_zip_self_mul (l : List ℚ) (k k' : ℚ) (hk : k = k') :
    ((l.zip l).all (fun p => decide (p.1 * k = p.2 * k'))) = true := by
  subst hk
  induction l with
  | nil => rfl
  | cons a t ih => simpa using ih

lemma qty1EqB_refl (q : Qty1) : qty1EqB (some q) (some q) = true := by
  show (decide (unitDim q.unit = unitDim q.unit) && decide (q.data.length = q.data.length) &&
    (q.data.zip q.data).all
      (fun p => decide (p.1 * uscale q.unit = p.2 * uscale q.unit))) = true
  rw [all_zip_self_mul q.data _ _ rfl]
  simp

lemma qty2EqB_refl (q : Qty2) : qty2EqB (some q) (some q) = true := by
  have hm : ∀ m : List (List ℚ), ((m.zip m).all fun rows =>
      decide (rows.1.length = rows.2.length) &&
        (rows.1.zip rows.2).all
          (fun p => decide (p.1 * uscale q.unit = p.2 * uscale q.unit))) = true := by
    intro m
    induction m with
    | nil => rfl
    | cons r t ih =>
      rw [List.zip_cons_cons, List.all_cons, ih, all_zip_self_mul r _ _ rfl]
      simp
  show (decide (unitDim q.unit = unitDim q.unit) && decide (q.data.length = q.data.length) &&
    (q.data.zip q.data).all (fun rows =>
      decide (rows.1.length = rows.2.length) &&
        (rows.1.zip rows.2).all
          (fun p => decide (p.1 * uscale q.unit = p.2 * uscale q.unit)))) = true
  rw [hm]
  simp

lemma foldl_max_init_le (t : List ℚ) : ∀ b : ℚ, b ≤ t.foldl max b := by
  induction t with
  | nil => intro b; simp
  | cons a t ih =>
    intro b
    exact le_trans (le_max_left b a) (ih (max b a))

lemma foldl_max_mem_le (t : List ℚ) : ∀ b x : ℚ, x ∈ t → x ≤ t.foldl max b := by
  induction t with
  | nil => intro b x hx; cases hx
  | cons a t ih =>
    intro b x hx
    rcases List.mem_cons.mp hx with h | h
    · subst h
      exact le_trans (le_max_right b x) (foldl_max_init_le t (max b x))
    · exact ih (max b a) x h

lemma le_npMax {l : List ℚ} {x : ℚ} (hx : x ∈ l) : x ≤ npMax l := by
  cases l with
  | nil => cases hx
  | cons h t =>
    rcases List.mem_cons.mp hx with h' | h'
    · subst h'; exact foldl_max_init_le t x
    · exact foldl_max_mem_le t h x h'

lemma foldl_min_le_init (t : List ℚ) : ∀ b : ℚ, t.foldl min b ≤ b := by
  induction t with
  | nil => intro b; simp
  | cons a t ih =>
    intro b
    exact le_trans (ih (min b a)) (min_le_left b a)

lemma foldl_min_le_mem (t : List ℚ) : ∀ b x : ℚ, x ∈ t → t.foldl min b ≤ x := by
  induction t with
  | nil => intro b x hx; cases hx
  | cons a t ih =>
    intro b x hx
    rcases List.mem_cons.mp hx with h | h
    · subst h
      exact le_trans (foldl_min_le_init t (min b x)) (min_le_right b x)
    · exact ih (min b a) x h

lemma npMin_le {l : List ℚ} {x : ℚ} (hx : x ∈ l) : npMin l ≤ x := by
  cases l with
  | nil => cases hx
  | cons h t =>
    rcases List.mem_cons.mp hx with h' | h'
    · subst h'; exact foldl_min_le_init t x
    · exact foldl_min_le_mem t h x h'

lemma npMin_le_npMax {l : List ℚ} (hl : l ≠ []) : npMin l ≤ npMax l := by
  cases l with
  | nil => exact absurd rfl hl
  | cons h t =>
    exact le_trans (foldl_min_le_init t h) (foldl_max_init_le t h)

lemma getD_map_of_lt (f : ℚ → ℚ) (l : List ℚ) (j : ℕ) (h : j < l.length) (d : ℚ) :
    (l.map f).getD j d = f (l.getD j 0) := by
  rw [List.getD_eq_getElem l 0 h, List.getD_eq_getElem _ d (by simpa using h)]
  simp

lemma getD_range_map (g : ℕ → ℚ) (n i : ℕ) (h : i < n) (d : ℚ) :
    ((List.range n).map g).getD i d = g i := by
  rw [List.getD_eq_getElem _ d (by simpa using h)]
  simp [h]

lemma foldl_overwrite (p : ℕ → Bool) (v : ℕ → ℚ) :
    ∀ (l : List ℕ) (init : ℚ),
      l.foldl (fun r i => if p i then v i else r) init =
        ((l.reverse.find? p).map v).getD init := by
  intro l
  induction l with
  | nil => intro init; simp
  | cons a t ih =>
    intro init
    simp only [List.foldl_cons, List.reverse_cons]
    rw [ih, List.find?_append]
    rcases hfind : t.reverse.find? p with _ | j
    · rcases hpa : p a <;> simp [List.find?, hpa, Option.or]
    · simp [Option.or]

lemma find?_reverse_range (p : ℕ → Bool) :
    ∀ (n j : ℕ), j < n → p j = true → (∀ k, k < n → p k = true → k ≤ j) →
      (List.range n).reverse.find? p = some j := by
  intro n
  induction n with
  | zero => intro j hj; omega
  | succ m ih =>
    intro j hj hpj hmax
    rw [List.range_succ, List.reverse_append]
    simp only [List.reverse_singleton, List.singleton_append, List.find?_cons]
    rcases hpm : p m with _ | _
    · have hjm : j < m := by
        rcases Nat.lt_succ_iff_lt_or_eq.mp hj with h | h
        · exact h
        · subst h; rw [hpj] at hpm; cases hpm
      exact ih j hjm hpj (fun k hk hpk => hmax k (by omega) hpk)
    · have : j = m := le_antisymm (by omega) (hmax m (by omega) hpm)
      subst this
      rfl

/-- Unpacking of `validCF`. -/
lemma validCF_destruct (c : ConvolvedFluxes) (h : validCF c = true) :
    ∃ mn f e, c.model_names = some mn ∧ c.flux = some f ∧ c.error = some e ∧
      (match c.wavelength with
       | none => true
       | some w => isLengthUnit w.unit && decide (0 < w.val)) = true ∧
      (match c.apertures with
       | none => true
       | some a => isLengthUnit a.unit && a.data.all (fun x => decide (0 < x))) = true ∧
      isFluxUnit f.unit = true ∧ f.data.length = mn.length ∧
      f.data.all (fun r => decide (r.length = c.n_ap)) = true ∧
      isFluxUnit e.unit = true ∧ e.data.length = mn.length ∧
      e.data.all (fun r => decide (r.length = c.n_ap)) = true := by
  unfold validCF at h
  rcases hmn : c.model_names with _ | mn <;>
    rcases hf : c.flux with _ | f <;>
    rcases he : c.error with _ | e <;>
    rw [hmn, hf, he] at h
  · simp at h
  · simp at h
  · simp at h
  · simp at h
  · simp at h
  · simp at h
  · simp at h
  · simp only [Bool.and_eq_true, decide_eq_true_eq] at h
    obtain ⟨⟨hw, hap⟩, ⟨⟨hfu, hflen⟩, hfrows⟩, ⟨⟨heu, helen⟩, herows⟩⟩ := h
    exact ⟨mn, f, e, rfl, rfl, rfl, hw, hap,
      hfu, hflen, hfrows, heu, helen, herows⟩

/-- The wavelength setter succeeds on a valid (or absent) wavelength. -/
lemma set_wavelength_valid (c : ConvolvedFluxes) (w : Option QtyS)
    (h : (match w with
          | none => true
          | some q => isLengthUnit q.unit && decide (0 < q.val)) = true) :
    c.set_wavelength w = .ok { c with wavelength := w } := by
  cases w with
  | none => rfl
  | some q =>
    simp only [Bool.and_eq_true, decide_eq_true_eq] at h
    simp [ConvolvedFluxes.set_wavelength, h.1, h.2]

/-- The apertures setter succeeds on a valid aperture array. -/
lemma set_apertures_valid (c : ConvolvedFluxes) (a : Qty1)
    (h1 : isLengthUnit a.unit = true)
    (h2 : a.data.all (fun x => decide (0 < x)) = true) :
    c.set_apertures (some a) = .ok { c with apertures := some a } := by
  simp [ConvolvedFluxes.set_apertures, h1, validate_array_1d, h2, Except.map]

/-- The flux setter succeeds on a valid flux matrix. -/
lemma set_flux_valid (c : ConvolvedFluxes) (mn : List String) (q : Qty2)
    (hmn : c.model_names = some mn)
    (hu : isFluxUnit q.unit = true)
    (hlen : q.data.length = mn.length)
    (hrows : q.data.all (fun r => decide (r.length = c.n_ap)) = true) :
    c.set_flux (some q) = .ok { c with flux := some q } := by
  simp only [ConvolvedFluxes.set_flux, hmn, hu, if_true]
  rw [validate_array_2d, if_pos ⟨hlen, hrows⟩]
  rfl

/-- The error setter succeeds on a valid error matrix. -/
lemma set_error_valid (c : ConvolvedFluxes) (mn : List String) (q : Qty2)
    (hmn : c.model_names = some mn)
    (hu : isFluxUnit q.unit = true)
    (hlen : q.data.length = mn.length)
    (hrows : q.data.all (fun r => decide (r.length = c.n_ap)) = true) :
    c.set_error (some q) = .ok { c with error := some q } := by
  simp only [ConvolvedFluxes.set_error, hmn, hu, if_true]
  rw [validate_array_2d, if_pos ⟨hlen, hrows⟩]
  rfl

/-- The fold of the `find_radius_cumul` loop is the interpolated value at
the greatest bracketing index when one exists, else the initial zero. -/
lemma cumul_fold_greatest (aps fl : List ℚ) (r : ℚ) (j : ℕ)
    (hj : j < aps.length - 1)
    (hbj : bracketB fl r j = true)
    (hmax : ∀ k, k < aps.length - 1 → bracketB fl r k = true → k ≤ j) :
    (List.range (aps.length - 1)).foldl
      (fun acc ia => if bracketB fl r ia then interpVal aps fl r ia else acc) 0 =
      interpVal aps fl r j := by
  rw [foldl_overwrite (bracketB fl r) (interpVal aps fl r),
    find?_reverse_range (bracketB fl r) (aps.length - 1) j hj hbj hmax]
  rfl

/-- `cumul_core` when neither boundary clamp fires: the result is the
interpolation at the greatest bracketing aperture pair. -/
lemma cumul_core_greatest (aps fl : List ℚ) (r : ℚ) (j : ℕ)
    (hj : j < aps.length - 1)
    (hbj : bracketB fl r j = true)
    (hmax : ∀ k, k < aps.length - 1 → bracketB fl r k = true → k ≤ j)
    (hlow : ¬ r < fl.getD 0 0)
    (hhigh : ¬ fl.getD (aps.length - 1) 0 ≤ r) :
    cumul_core aps fl r = interpVal aps fl r j := by
  simp only [cumul_core]
  rw [cumul_fold_greatest aps fl r j hj hbj hmax, if_neg hlow, if_neg hhigh]

/-- C4: on an instance whose `model_names` is unset (in whatever order the
other attributes were assigned), assigning a non-None value to `flux` or to
`error` fails with the error "model_names has not been set". -/
theorem c4_flux_error_require_model_names (c : ConvolvedFluxes)
    (h : c.model_names = none) (vf ve : Qty2) :
    c.set_flux (some vf) = .error "model_names has not been set" ∧
    c.set_error (some ve) = .error "model_names has not been set" := by
  constructor
  · simp [ConvolvedFluxes.set_flux, h]
  · simp [ConvolvedFluxes.set_error, h]

theorem c4_witness :
    ({} : ConvolvedFluxes).model_names = none ∧
    (({} : ConvolvedFluxes).set_flux (some ⟨[[1]], .mJy⟩) =
        .error "model_names has not been set" ∧
      ({} : ConvolvedFluxes).set_error (some ⟨[[1]], .mJy⟩) =
        .error "model_names has not been set") :=
  ⟨rfl, c4_flux_error_require_model_names {} rfl ⟨[[1]], .mJy⟩ ⟨[[1]], .mJy⟩⟩

/-- C10 (counterexample): for the instance with apertures `[1,2,3,4,5]` au
and the model flux row `[5,0,3,1,4]` mJy at fraction `1/2`, the required
value `2` falls in the half-open bracket `[flux[i], flux[i+1])` for the two
pairs `i = 1` and `i = 3`, yet the radius returned by `find_radius_cumul`
is the first aperture (the `required < flux[0]` clamp overwrites the loop),
not the value interpolated in the largest bracketing pair `i = 3`. -/
theorem c10_counterexample :
    bracketB [5, 0, 3, 1, 4]
        ((1 / 2) * (([5, 0, 3, 1, 4] : List ℚ).getD 4 0)) 1 = true ∧
    bracketB [5, 0, 3, 1, 4]
        ((1 / 2) * (([5, 0, 3, 1, 4] : List ℚ).getD 4 0)) 3 = true ∧
    (∀ k < 4, bracketB [5, 0, 3, 1, 4]
        ((1 / 2) * (([5, 0, 3, 1, 4] : List ℚ).getD 4 0)) k = true → k ≤ 3) ∧
    ¬ (ConvolvedFluxes.find_radius_cumul
        { model_names := some ["m"]
          apertures := some ⟨[1, 2, 3, 4, 5], .au⟩
          flux := some ⟨[[5, 0, 3, 1, 4]], .mJy⟩
          error := some ⟨[[0, 0, 0, 0, 0]], .mJy⟩ } (1 / 2)).data.getD 0 0 =
      interpVal [1, 2, 3, 4, 5] [5, 0, 3, 1, 4]
        ((1 / 2) * (([5, 0, 3, 1, 4] : List ℚ).getD 4 0)) 3 *
        (uscale .au / uscale .au) := by
  refine ⟨by norm_num [bracketB], by norm_num [bracketB], ?_, ?_⟩
  · intro k hk
    interval_cases k <;> norm_num [bracketB]
  · norm_num [ConvolvedFluxes.find_radius_cumul, cumul_row, cumul_core, bracketB,
      interpVal, List.range_succ, npMax, npMin, uscale]

/-- C10 (amended): when a model's flux row is non-monotonic so that the
required value `fraction * flux[-1]` falls in the half-open bracket
`[flux[i], flux[i+1])` for more than one aperture pair `i`, and the
required value additionally lies in `[flux[0], flux[-1])` so that neither
boundary clamp fires, the radius returned by `find_radius_cumul` for that
model is the one interpolated in the pair with the largest such index
(the aperture loop runs innermost to outermost, each matching pair
overwriting the previous assignment). -/
theorem c10_largest_bracket_wins (c : ConvolvedFluxes) (mn : List String)
    (a : Qty1) (f : Qty2) (i j : ℕ) (fraction : ℚ)
    (hmn : c.model_names = some mn) (ha : c.apertures = some a)
    (hf : c.flux = some f) (hi : i < mn.length)
    (hj : j < a.data.length - 1)
    (hbj : bracketB (f.data.getD i [])
      (fraction * (f.data.getD i []).getD (a.data.length - 1) 0) j = true)
    (_hmulti : ∃ j' < j, bracketB (f.data.getD i [])
      (fraction * (f.data.getD i []).getD (a.data.length - 1) 0) j' = true)
    (hmax : ∀ k < a.data.length - 1, bracketB (f.data.getD i [])
      (fraction * (f.data.getD i []).getD (a.data.length - 1) 0) k = true → k ≤ j)
    (hlow : ¬ fraction * (f.data.getD i []).getD (a.data.length - 1) 0 <
      (f.data.getD i []).getD 0 0)
    (hhigh : ¬ (f.data.getD i []).getD (a.data.length - 1) 0 ≤
      fraction * (f.data.getD i []).getD (a.data.length - 1) 0) :
    (c.find_radius_cumul fraction).data.getD i 0 =
      interpVal a.data (f.data.getD i [])
        (fraction * (f.data.getD i []).getD (a.data.length - 1) 0) j *
        (uscale a.unit / uscale .au) := by
  unfold ConvolvedFluxes.find_radius_cumul
  rw [hmn, ha, hf]
  show (((List.range mn.length).map
    (fun i => cumul_row a.data (f.data.getD i []) fraction *
      (uscale a.unit / uscale .au))).getD i 0) = _
  rw [getD_range_map _ _ _ hi]
  unfold cumul_row
  rw [cumul_core_greatest a.data (f.data.getD i []) _ j hj hbj hmax hlow hhigh]

theorem c10_witness :
    (0 : ℕ) < 1 ∧ (2 : ℕ) < 4 ∧
    bracketB [0, 5, 1, 6, 8]
      ((1 / 2) * (([0, 5, 1, 6, 8] : List ℚ).getD 4 0)) 2 = true ∧
    (ConvolvedFluxes.find_radius_cumul
        { model_names := some ["m"]
          apertures := some ⟨[1, 2, 3, 4, 5], .au⟩
          flux := some ⟨[[0, 5, 1, 6, 8]], .mJy⟩
          error := some ⟨[[0, 0, 0, 0, 0]], .mJy⟩ } (1 / 2)).data.getD 0 0 =
      interpVal [1, 2, 3, 4, 5] [0, 5, 1, 6, 8]
        ((1 / 2) * (([0, 5, 1, 6, 8] : List ℚ).getD 4 0)) 2 *
        (uscale .au / uscale .au) :=
  ⟨by norm_num, by norm_num, by norm_num [bracketB],
    c10_largest_bracket_wins
      { model_names := some ["m"]
        apertures := some ⟨[1, 2, 3, 4, 5], .au⟩
        flux := some ⟨[[0, 5, 1, 6, 8]], .mJy⟩
        error := some ⟨[[0, 0, 0, 0, 0]], .mJy⟩ }
      ["m"] ⟨[1, 2, 3, 4, 5], .au⟩ ⟨[[0, 5, 1, 6, 8]], .mJy⟩ 0 2 (1 / 2)
      rfl rfl rfl (by norm_num) (by norm_num)
      (by norm_num [bracketB])
      ⟨0, by norm_num, by norm_num [bracketB]⟩
      (by
        intro k hk hb
        have hk4 : k < 4 := by simpa using hk
        interval_cases k <;> revert hb <;> norm_num [bracketB])
      (by norm_num) (by norm_num)⟩

/-- C9 (amended, row level): `find_radius_sigma`'s final assignment gives
exactly the last aperture to any row whose outermost annulus brightness
strictly exceeds `fraction` times the peak brightness. -/
lemma sigma_radius_row_last (aps fl : List ℚ) (fraction : ℚ)
    (hlast : fraction * npMax (sigma_row aps fl) <
      (sigma_row aps fl).getD (aps.length - 1) 0) :
    sigma_radius_row aps fl fraction = aps.getD (aps.length - 1) 0 := by
  simp only [sigma_radius_row]
  rw [if_pos hlast]

/-- C9 (amended): for every model whose outermost annulus surface
brightness strictly exceeds `fraction` times the peak annulus brightness,
`find_radius_sigma` returns exactly the last aperture for that model (the
final clamp overwrites any value assigned by the interpolating scan). -/
theorem c9_sigma_last_aperture (c : ConvolvedFluxes) (mn : List String)
    (a : Qty1) (f : Qty2) (i : ℕ) (fraction : ℚ)
    (hmn : c.model_names = some mn) (ha : c.apertures = some a)
    (hf : c.flux = some f) (hi : i < mn.length)
    (hlast : fraction * npMax (sigma_row a.data (f.data.getD i [])) <
      (sigma_row a.data (f.data.getD i [])).getD (a.data.length - 1) 0) :
    (c.find_radius_sigma fraction).data.getD i 0 =
      a.data.getD (a.data.length - 1) 0 * (uscale a.unit / uscale .au) := by
  unfold ConvolvedFluxes.find_radius_sigma
  rw [hmn, ha, hf]
  show (((List.range mn.length).map
    (fun i => sigma_radius_row a.data (f.data.getD i []) fraction *
      (uscale a.unit / uscale .au))).getD i 0) = _
  rw [getD_range_map _ _ _ hi, sigma_radius_row_last a.data (f.data.getD i []) fraction hlast]

theorem c9_witness :
    (0 : ℕ) < 1 ∧
    ((1 / 2 : ℚ) * npMax (sigma_row [1, 2] [1, 5]) <
      (sigma_row [1, 2] [1, 5]).getD 1 0) ∧
    (ConvolvedFluxes.find_radius_sigma
        { model_names := some ["m"]
          apertures := some ⟨[1, 2], .au⟩
          flux := some ⟨[[1, 5]], .mJy⟩
          error := some ⟨[[0, 0]], .mJy⟩ } (1 / 2)).data.getD 0 0 =
      ([1, 2] : List ℚ).getD 1 0 * (uscale .au / uscale .au) :=
  ⟨by norm_num, by norm_num [sigma_row, npMax, List.range_succ],
    c9_sigma_last_aperture
      { model_names := some ["m"]
        apertures := some ⟨[1, 2], .au⟩
        flux := some ⟨[[1, 5]], .mJy⟩
        error := some ⟨[[0, 0]], .mJy⟩ }
      ["m"] ⟨[1, 2], .au⟩ ⟨[[1, 5]], .mJy⟩ 0 (1 / 2)
      rfl rfl rfl (by norm_num)
      (by norm_num [sigma_row, npMax, List.range_succ])⟩

/-- C9 (counterexample): for the instance with apertures `[1, 2]` au and
flux row `[-1, -1]` mJy, the annulus surface brightnesses are `[-1, 0]`, so
the brightness is maximal at the outermost annulus; yet at fraction `1/2`
`find_radius_sigma` returns `0`, not the last aperture — "maximal at the
outermost annulus" and "outermost brightness exceeds fraction times the
peak" are not equivalent, and under the former the claim fails. -/
theorem c9_counterexample :
    ((sigma_row [1, 2] [-1, -1]).all
      (fun s => decide (s ≤ (sigma_row [1, 2] [-1, -1]).getD 1 0)) = true) ∧
    ¬ (ConvolvedFluxes.find_radius_sigma
        { model_names := some ["m"]
          apertures := some ⟨[1, 2], .au⟩
          flux := some ⟨[[-1, -1]], .mJy⟩
          error := some ⟨[[0, 0]], .mJy⟩ } (1 / 2)).data.getD 0 0 =
      ([1, 2] : List ℚ).getD 1 0 * (uscale .au / uscale .au) := by
  constructor
  · norm_num [sigma_row, List.range_succ]
  · norm_num [ConvolvedFluxes.find_radius_sigma, sigma_radius_row, sigma_row,
      npMax, uscale, List.range_succ]

lemma ok_bind {α β : Type} (a : α) (f : α → Except String β) :
    (Except.ok a >>= f) = f a := rfl

/-- C3: when the source instance has more than one aperture, requesting
interpolation at any (valid, positive length) aperture sequence containing
a value strictly below the source's minimum aperture raises the error
"Aperture(s) requested too small" and returns no new instance. -/
theorem c3_below_min (self : ConvolvedFluxes) (sa : Qty1) (target : Qty1)
    (hv : validCF self = true) (ha : self.apertures = some sa)
    (hA : 1 < sa.data.length)
    (htu : isLengthUnit target.unit = true)
    (htpos : target.data.all (fun x => decide (0 < x)) = true)
    (hsmall : ∃ x ∈ target.data,
      x * uscale target.unit < npMin sa.data * uscale sa.unit) :
    self.interpolate target = .error "Aperture(s) requested too small" := by
  obtain ⟨mn, f, e, hmn, hf, he, hw, hap, _⟩ := validCF_destruct self hv
  simp only [ConvolvedFluxes.interpolate]
  rw [set_wavelength_valid _ _ hw]
  rw [ok_bind]
  rw [set_apertures_valid _ target htu htpos]
  rw [ok_bind]
  rw [ConvolvedFluxes.set_model_names]
  rw [ok_bind]
  rw [ConvolvedFluxes.n_ap, ha, hf, he]
  dsimp only
  rw [if_pos hA]
  obtain ⟨x, hxmem, hxlt⟩ := hsmall
  have hne : sa.data ≠ [] := by
    intro h0
    rw [h0] at hA
    simp at hA
  have hminmax : npMin sa.data * uscale sa.unit ≤ npMax sa.data * uscale sa.unit :=
    mul_le_mul_of_nonneg_right (npMin_le_npMax hne) (le_of_lt (uscale_pos sa.unit))
  have hcond : ((if (target.data.any fun x =>
        decide (npMax sa.data * uscale sa.unit < x * uscale target.unit)) = true then
      List.map (fun x =>
        if npMax sa.data * uscale sa.unit < x * uscale target.unit then
          npMax sa.data * uscale sa.unit / uscale target.unit
        else x) target.data
    else target.data).any
      fun x => decide (x * uscale target.unit < npMin sa.data * uscale sa.unit)) = true := by
    split_ifs with hguard
    · exact List.any_eq_true.mpr ⟨_, List.mem_map_of_mem _ hxmem, by
        rw [if_neg (not_lt.mpr (le_of_lt (lt_of_lt_of_le hxlt hminmax)))]
        exact decide_eq_true hxlt⟩
    · exact List.any_eq_true.mpr ⟨x, hxmem, decide_eq_true hxlt⟩
  rw [if_pos hcond]

/-- C2: when the source instance has more than one aperture and the
caller-supplied target aperture sequence contains at least one value
strictly greater than the source's maximum aperture (and none below the
minimum), `interpolate` does not raise, and every oversized entry of the
caller's own input buffer (aliased by the new instance's apertures through
the numpy view) is overwritten in place with the source's maximum aperture
(expressed in the caller's unit). -/
theorem c2_clamp (self : ConvolvedFluxes) (sa : Qty1) (target : Qty1)
    (hv : validCF self = true) (ha : self.apertures = some sa)
    (hA : 1 < sa.data.length)
    (htu : isLengthUnit target.unit = true)
    (htpos : target.data.all (fun x => decide (0 < x)) = true)
    (hover : ∃ x ∈ target.data,
      npMax sa.data * uscale sa.unit < x * uscale target.unit)
    (hsafe : ∀ x ∈ target.data,
      ¬ x * uscale target.unit < npMin sa.data * uscale sa.unit) :
    ∃ c' buf, self.interpolate target = .ok (c', buf) ∧
      buf.unit = target.unit ∧
      buf.data.length = target.data.length ∧
      ∀ j < target.data.length,
        npMax sa.data * uscale sa.unit < target.data.getD j 0 * uscale target.unit →
          buf.data.getD j 0 * uscale target.unit = npMax sa.data * uscale sa.unit := by
  obtain ⟨mn, f, e, hmn, hf, he, hw, hap, hfu, hflen, hfrows, heu, helen, herows⟩ :=
    validCF_destruct self hv
  simp only [ConvolvedFluxes.interpolate]
  rw [set_wavelength_valid _ _ hw]
  rw [ok_bind]
  rw [set_apertures_valid _ target htu htpos]
  rw [ok_bind]
  rw [ConvolvedFluxes.set_model_names]
  rw [ok_bind]
  rw [ConvolvedFluxes.n_ap, ha, hf, he, hmn]
  dsimp only
  rw [if_pos hA]
  obtain ⟨xo, hxomem, hxolt⟩ := hover
  have hne : sa.data ≠ [] := by
    intro h0
    rw [h0] at hA
    simp at hA
  have hminmax : npMin sa.data * uscale sa.unit ≤ npMax sa.data * uscale sa.unit :=
    mul_le_mul_of_nonneg_right (npMin_le_npMax hne) (le_of_lt (uscale_pos sa.unit))
  have hguard : (target.data.any fun x =>
      decide (npMax sa.data * uscale sa.unit < x * uscale target.unit)) = true :=
    List.any_eq_true.mpr ⟨xo, hxomem, decide_eq_true hxolt⟩
  simp only [hguard, if_true]
  have hminfalse : ((List.map (fun x =>
      if npMax sa.data * uscale sa.unit < x * uscale target.unit then
        npMax sa.data * uscale sa.unit / uscale target.unit
      else x) target.data).any
        fun x => decide (x * uscale target.unit < npMin sa.data * uscale sa.unit)) = false := by
    rw [List.any_eq_false]
    intro y hy
    rcases List.mem_map.mp hy with ⟨x, hxm, rfl⟩
    by_cases hx : npMax sa.data * uscale sa.unit < x * uscale target.unit
    · rw [if_pos hx]
      simp only [decide_eq_true_eq]
      rw [div_mul_cancel₀ _ (uscale_ne_zero target.unit)]
      exact not_lt.mpr hminmax
    · rw [if_neg hx]
      simpa using hsafe x hxm
  simp only [hminfalse, Bool.false_eq_true, if_false]
  set clampf : ℚ → ℚ := fun x =>
    if npMax sa.data * uscale sa.unit < x * uscale target.unit then
      npMax sa.data * uscale sa.unit / uscale target.unit
    else x with hclampf
  set B := List.map clampf target.data with hB
  set Q := List.map (fun x => x * uscale target.unit / uscale sa.unit) B with hQ
  set MF := List.map (fun row => List.map (interp_row sa.data row) Q) f.data with hMF
  set ME := List.map (fun row => List.map (interp_row sa.data row) Q) e.data with hME
  have h1 : ConvolvedFluxes.set_flux
      { wavelength := self.wavelength, model_names := some mn,
        apertures := some ⟨B, target.unit⟩, flux := none, error := none,
        radius_sigma_50 := none, radius_cumul_99 := none }
      (some ⟨MF, f.unit⟩) = .ok
      { wavelength := self.wavelength, model_names := some mn,
        apertures := some ⟨B, target.unit⟩, flux := some ⟨MF, f.unit⟩, error := none,
        radius_sigma_50 := none, radius_cumul_99 := none } := by
    apply set_flux_valid
      { wavelength := self.wavelength, model_names := some mn,
        apertures := some ⟨B, target.unit⟩, flux := none, error := none,
        radius_sigma_50 := none, radius_cumul_99 := none }
      mn ⟨MF, f.unit⟩ rfl hfu
    · rw [hMF, List.length_map]
      exact hflen
    · rw [hMF, List.all_eq_true]
      intro r hr
      rcases List.mem_map.mp hr with ⟨row, hrow, rfl⟩
      simp [ConvolvedFluxes.n_ap, hQ, hB]
  rw [h1, ok_bind]
  have h2 : ConvolvedFluxes.set_error
      { wavelength := self.wavelength, model_names := some mn,
        apertures := some ⟨B, target.unit⟩, flux := some ⟨MF, f.unit⟩, error := none,
        radius_sigma_50 := none, radius_cumul_99 := none }
      (some ⟨ME, e.unit⟩) = .ok
      { wavelength := self.wavelength, model_names := some mn,
        apertures := some ⟨B, target.unit⟩, flux := some ⟨MF, f.unit⟩,
        error := some ⟨ME, e.unit⟩,
        radius_sigma_50 := none, radius_cumul_99 := none } := by
    apply set_error_valid
      { wavelength := self.wavelength, model_names := some mn,
        apertures := some ⟨B, target.unit⟩, flux := some ⟨MF, f.unit⟩, error := none,
        radius_sigma_50 := none, radius_cumul_99 := none }
      mn ⟨ME, e.unit⟩ rfl heu
    · rw [hME, List.length_map]
      exact helen
    · rw [hME, List.all_eq_true]
      intro r hr
      rcases List.mem_map.mp hr with ⟨row, hrow, rfl⟩
      simp [ConvolvedFluxes.n_ap, hQ, hB]
  rw [h2, ok_bind]
  refine ⟨_, _, rfl, rfl, ?_, ?_⟩
  · rw [hB]
    simp
  · intro j hj hov
    have hgd : B.getD j 0 = clampf (target.data.getD j 0) := by
      rw [hB]
      exact getD_map_of_lt clampf target.data j hj 0
    rw [hgd, hclampf]
    dsimp only
    rw [if_pos hov, div_mul_cancel₀ _ (uscale_ne_zero target.unit)]

lemma strictIncrB_get {l : List ℚ} (h : strictIncrB l = true) :
    ∀ k, k + 1 < l.length → l.getD k 0 < l.getD (k + 1) 0 := by
  intro k hk
  have := List.all_eq_true.mp h k (List.mem_range.mpr (by omega))
  simpa using this

lemma chain_getD_lt {l : List ℚ}
    (hchain : ∀ k, k + 1 < l.length → l.getD k 0 < l.getD (k + 1) 0) :
    ∀ i j, i < j → j < l.length → l.getD i 0 < l.getD j 0 := by
  intro i j hij hj
  induction j with
  | zero => omega
  | succ m ih =>
    rcases Nat.lt_succ_iff_lt_or_eq.mp hij with h | h
    · exact lt_trans (ih h (by omega)) (hchain m hj)
    · subst h
      exact hchain i hj

lemma interp_pts_node :
    ∀ (xs ys : List ℚ), 2 ≤ xs.length → ys.length = xs.length →
      (∀ k, k + 1 < xs.length → xs.getD k 0 < xs.getD (k + 1) 0) →
      ∀ i, i < xs.length → interp_pts (xs.zip ys) (xs.getD i 0) = ys.getD i 0 := by
  intro xs
  induction xs with
  | nil => intro ys h2; simp at h2
  | cons x0 xs' ih =>
    intro ys h2 hlen hchain i hi
    rcases xs' with _ | ⟨x1, rest⟩
    · simp at h2
    rcases ys with _ | ⟨y0, ys'⟩
    · simp at hlen
    rcases ys' with _ | ⟨y1, rest'⟩
    · simp at hlen
    have hx01 : x0 < x1 := hchain 0 (by simp)
    rcases i with _ | i
    · -- i = 0 : query is the first node
      show interp_pts ((x0, y0) :: (x1, y1) :: (rest.zip rest')) x0 = y0
      rw [interp_pts, if_pos (le_of_lt hx01)]
      simp
    rcases i with _ | i
    · -- i = 1 : query is the second node
      show interp_pts ((x0, y0) :: (x1, y1) :: (rest.zip rest')) x1 = y1
      rw [interp_pts, if_pos (le_refl x1)]
      rw [mul_comm, mul_div_assoc, div_self (sub_ne_zero.mpr (ne_of_gt hx01))]
      ring
    · -- i ≥ 2 : the query lies beyond the second node; recurse on the tail
      have htail : ((x1 :: rest) : List ℚ).getD 0 0 < (x1 :: rest).getD (i + 1) 0 := by
        apply chain_getD_lt (l := x1 :: rest)
        · intro k hk
          have := hchain (k + 1) (by simpa using hk)
          simpa using this
        · omega
        · simpa using Nat.lt_of_succ_lt_succ hi
      show interp_pts ((x0, y0) :: (x1, y1) :: (rest.zip rest'))
        ((x1 :: rest).getD (i + 1) 0) = (y1 :: rest').getD (i + 1) 0
      rw [interp_pts, if_neg (not_le.mpr (by simpa using htail))]
      have h2' : 2 ≤ (x1 :: rest).length := by
        have : i + 1 < (x1 :: rest).length := by simpa using Nat.lt_of_succ_lt_succ hi
        omega
      have hlen' : ((y1 :: rest') : List ℚ).length = (x1 :: rest).length := by
        simpa using hlen
      have hchain' : ∀ k, k + 1 < ((x1 :: rest) : List ℚ).length →
          (x1 :: rest).getD k 0 < (x1 :: rest).getD (k + 1) 0 := by
        intro k hk
        have := hchain (k + 1) (by simpa using hk)
        simpa using this
      exact ih (y1 :: rest') h2' hlen' hchain' (i + 1)
        (by simpa using Nat.lt_of_succ_lt_succ hi)

lemma map_interp_nodes (xs row : List ℚ) (h2 : 2 ≤ xs.length)
    (hlen : row.length = xs.length)
    (hchain : ∀ k, k + 1 < xs.length → xs.getD k 0 < xs.getD (k + 1) 0) :
    List.map (interp_row xs row) xs = row := by
  apply List.ext_getElem (by simp [hlen])
  intro i h1 h1'
  simp only [List.getElem_map]
  have hxi : i < xs.length := hlen ▸ h1'
  have hnode := interp_pts_node xs row h2 hlen hchain i hxi
  rw [interp_row] at *
  rw [List.getD_eq_getElem xs 0 hxi] at hnode
  rw [List.getD_eq_getElem row 0 h1'] at hnode
  exact hnode

lemma copyRadii_flux (self c : ConvolvedFluxes) : (copyRadii self c).flux = c.flux := by
  unfold copyRadii
  rcases self.radius_sigma_50 <;> rcases self.radius_cumul_99 <;> rfl

lemma copyRadii_error (self c : ConvolvedFluxes) : (copyRadii self c).error = c.error := by
  unfold copyRadii
  rcases self.radius_sigma_50 <;> rcases self.radius_cumul_99 <;> rfl

/-- C7: for a source instance with more than one (strictly increasing)
aperture, interpolating onto exactly the source's own aperture sequence
returns an instance whose flux and error matrices (data and unit) equal the
source's element-wise — piecewise-linear interpolation is the identity at
its own nodes. -/
theorem c7_identity (self : ConvolvedFluxes) (sa : Qty1)
    (hv : validCF self = true) (ha : self.apertures = some sa)
    (hA : 1 < sa.data.length) (hstrict : strictIncrB sa.data = true) :
    ∃ c' buf, self.interpolate sa = .ok (c', buf) ∧
      c'.flux = self.flux ∧ c'.error = self.error := by
  obtain ⟨mn, f, e, hmn, hf, he, hw, hap, hfu, hflen, hfrows, heu, helen, herows⟩ :=
    validCF_destruct self hv
  have hsau : isLengthUnit sa.unit = true ∧
      sa.data.all (fun x => decide (0 < x)) = true := by
    rw [ha] at hap
    simpa using hap
  simp only [ConvolvedFluxes.interpolate]
  rw [set_wavelength_valid _ _ hw]
  rw [ok_bind]
  rw [set_apertures_valid _ sa hsau.1 hsau.2]
  rw [ok_bind]
  rw [ConvolvedFluxes.set_model_names]
  rw [ok_bind]
  rw [ConvolvedFluxes.n_ap, ha, hf, he, hmn]
  dsimp only
  rw [if_pos hA]
  have hguardF : (sa.data.any fun x =>
      decide (npMax sa.data * uscale sa.unit < x * uscale sa.unit)) = false := by
    rw [List.any_eq_false]
    intro x hx
    simp only [decide_eq_true_eq]
    exact not_lt.mpr
      (mul_le_mul_of_nonneg_right (le_npMax hx) (le_of_lt (uscale_pos sa.unit)))
  simp only [hguardF, Bool.false_eq_true, if_false]
  have hminF : (sa.data.any fun x =>
      decide (x * uscale sa.unit < npMin sa.data * uscale sa.unit)) = false := by
    rw [List.any_eq_false]
    intro x hx
    simp only [decide_eq_true_eq]
    exact not_lt.mpr
      (mul_le_mul_of_nonneg_right (npMin_le hx) (le_of_lt (uscale_pos sa.unit)))
  simp only [hminF, Bool.false_eq_true, if_false]
  have hquer : List.map (fun x => x * uscale sa.unit / uscale sa.unit) sa.data = sa.data := by
    have : ∀ x ∈ sa.data, x * uscale sa.unit / uscale sa.unit = x := by
      intro x _
      exact mul_div_cancel_right₀ x (uscale_ne_zero sa.unit)
    rw [List.map_congr_left this]
    simp
  rw [hquer]
  have hchain := strictIncrB_get hstrict
  have hrowlen : ∀ r ∈ f.data, r.length = sa.data.length := by
    intro r hr
    have := List.all_eq_true.mp hfrows r hr
    rw [ConvolvedFluxes.n_ap, ha] at this
    simpa using this
  have herowlen : ∀ r ∈ e.data, r.length = sa.data.length := by
    intro r hr
    have := List.all_eq_true.mp herows r hr
    rw [ConvolvedFluxes.n_ap, ha] at this
    simpa using this
  have hMFid : List.map (fun row => List.map (interp_row sa.data row) sa.data) f.data
      = f.data := by
    have : ∀ row ∈ f.data,
        List.map (interp_row sa.data row) sa.data = row := by
      intro row hrow
      exact map_interp_nodes sa.data row (by omega) (hrowlen row hrow) hchain
    rw [List.map_congr_left this]
    simp
  have hMEid : List.map (fun row => List.map (interp_row sa.data row) sa.data) e.data
      = e.data := by
    have : ∀ row ∈ e.data,
        List.map (interp_row sa.data row) sa.data = row := by
      intro row hrow
      exact map_interp_nodes sa.data row (by omega) (herowlen row hrow) hchain
    rw [List.map_congr_left this]
    simp
  rw [hMFid, hMEid]
  have h1 : ConvolvedFluxes.set_flux
      { wavelength := self.wavelength, model_names := some mn,
        apertures := some ⟨sa.data, sa.unit⟩, flux := none, error := none,
        radius_sigma_50 := none, radius_cumul_99 := none }
      (some ⟨f.data, f.unit⟩) = .ok
      { wavelength := self.wavelength, model_names := some mn,
        apertures := some ⟨sa.data, sa.unit⟩, flux := some ⟨f.data, f.unit⟩, error := none,
        radius_sigma_50 := none, radius_cumul_99 := none } := by
    apply set_flux_valid
      { wavelength := self.wavelength, model_names := some mn,
        apertures := some ⟨sa.data, sa.unit⟩, flux := none, error := none,
        radius_sigma_50 := none, radius_cumul_99 := none }
      mn ⟨f.data, f.unit⟩ rfl hfu hflen
    rw [List.all_eq_true]
    intro r hr
    have := hrowlen r hr
    simp [ConvolvedFluxes.n_ap, this]
  rw [h1, ok_bind]
  have h2 : ConvolvedFluxes.set_error
      { wavelength := self.wavelength, model_names := some mn,
        apertures := some ⟨sa.data, sa.unit⟩, flux := some ⟨f.data, f.unit⟩, error := none,
        radius_sigma_50 := none, radius_cumul_99 := none }
      (some ⟨e.data, e.unit⟩) = .ok
      { wavelength := self.wavelength, model_names := some mn,
        apertures := some ⟨sa.data, sa.unit⟩, flux := some ⟨f.data, f.unit⟩,
        error := some ⟨e.data, e.unit⟩,
        radius_sigma_50 := none, radius_cumul_99 := none } := by
    apply set_error_valid
      { wavelength := self.wavelength, model_names := some mn,
        apertures := some ⟨sa.data, sa.unit⟩, flux := some ⟨f.data, f.unit⟩, error := none,
        radius_sigma_50 := none, radius_cumul_99 := none }
      mn ⟨e.data, e.unit⟩ rfl heu helen
    rw [List.all_eq_true]
    intro r hr
    have := herowlen r hr
    simp [ConvolvedFluxes.n_ap, this]
  rw [h2, ok_bind]
  refine ⟨_, _, rfl, ?_, ?_⟩
  · rw [copyRadii_flux]
  · rw [copyRadii_error]

lemma getD_map_lt {α β : Type} (g : α → β) (l : List α) (j : ℕ) (h : j < l.length)
    (d : β) (d' : α) : (l.map g).getD j d = g (l.getD j d') := by
  rw [List.getD_eq_getElem l d' h, List.getD_eq_getElem _ d (by simpa using h)]
  simp

lemma repeat_reshape_broadcast (m : List (List ℚ)) (L : ℕ)
    (hrows : ∀ r ∈ m, r.length = 1) :
    np_reshape2 m.length L (np_repeat m L) =
      List.map (fun r => List.replicate L (r.getD 0 0)) m := by
  induction m with
  | nil => rfl
  | cons r t ih =>
    have hr : r.length = 1 := hrows r (List.mem_cons_self r t)
    rcases r with _ | ⟨x, rest⟩
    · simp at hr
    rcases rest with _ | ⟨y, rest'⟩
    · show np_reshape2 (t.length + 1) L (np_repeat ([x] :: t) L) = _
      have hrep : np_repeat ([x] :: t) L = List.replicate L x ++ np_repeat t L := by
        unfold np_repeat
        simp
      rw [hrep]
      show (List.replicate L x ++ np_repeat t L).take L ::
          np_reshape2 t.length L ((List.replicate L x ++ np_repeat t L).drop L) = _
      have hlenrep : (List.replicate L x).length = L := List.length_replicate L x
      rw [List.take_left' hlenrep, List.drop_left' hlenrep]
      rw [ih (fun r hrm => hrows r (List.mem_cons_of_mem _ hrm))]
      simp
    · simp at hr

/-- C6: for a source instance with a single aperture or no aperture axis
(`n_ap = 1`) and any non-empty valid target aperture sequence of length L,
`interpolate` returns an instance whose flux and error matrices have shape
`(n_models, L)` with each model's single flux and error value broadcast
identically to all L target apertures. -/
theorem c6_broadcast (self : ConvolvedFluxes) (target : Qty1) (mn : List String)
    (f e : Qty2)
    (hv : validCF self = true) (hap1 : self.n_ap = 1)
    (hmn : self.model_names = some mn) (hf : self.flux = some f)
    (he : self.error = some e)
    (htu : isLengthUnit target.unit = true)
    (htpos : target.data.all (fun x => decide (0 < x)) = true)
    (_hL : 0 < target.data.length) :
    ∃ c' buf, self.interpolate target = .ok (c', buf) ∧
      c'.flux = some ⟨List.map
        (fun r => List.replicate target.data.length (r.getD 0 0)) f.data, f.unit⟩ ∧
      c'.error = some ⟨List.map
        (fun r => List.replicate target.data.length (r.getD 0 0)) e.data, e.unit⟩ ∧
      (∀ qf, c'.flux = some qf → qf.data.length = mn.length ∧
        ∀ i < mn.length, qf.data.getD i [] =
          List.replicate target.data.length ((f.data.getD i []).getD 0 0)) := by
  obtain ⟨mn', f', e', hmn', hf', he', hw, hap, hfu, hflen, hfrows, heu, helen, herows⟩ :=
    validCF_destruct self hv
  obtain rfl : mn = mn' := Option.some.inj (hmn.symm.trans hmn')
  obtain rfl : f = f' := Option.some.inj (hf.symm.trans hf')
  obtain rfl : e = e' := Option.some.inj (he.symm.trans he')
  have hfrows1 : ∀ r ∈ f.data, r.length = 1 := by
    intro r hr
    have := List.all_eq_true.mp hfrows r hr
    rw [hap1] at this
    simpa using this
  have herows1 : ∀ r ∈ e.data, r.length = 1 := by
    intro r hr
    have := List.all_eq_true.mp herows r hr
    rw [hap1] at this
    simpa using this
  simp only [ConvolvedFluxes.interpolate]
  rw [set_wavelength_valid _ _ hw]
  rw [ok_bind]
  rw [set_apertures_valid _ target htu htpos]
  rw [ok_bind]
  rw [ConvolvedFluxes.set_model_names]
  rw [ok_bind]
  rw [hap1, hf', he', hmn']
  dsimp only
  rw [if_neg (by norm_num)]
  rw [ConvolvedFluxes.n_models]
  simp only [Option.map_some', Option.getD_some]
  have hresh : ∀ (m : List (List ℚ)), m.length = mn.length → (∀ r ∈ m, r.length = 1) →
      np_reshape2 mn.length target.data.length (np_repeat m target.data.length) =
        List.map (fun r => List.replicate target.data.length (r.getD 0 0)) m := by
    intro m hm hr1
    rw [← hm]
    exact repeat_reshape_broadcast m target.data.length hr1
  rw [hresh f.data hflen hfrows1, hresh e.data helen herows1]
  have h1 : ConvolvedFluxes.set_flux
      { wavelength := self.wavelength, model_names := some mn,
        apertures := some target, flux := none, error := none,
        radius_sigma_50 := none, radius_cumul_99 := none }
      (some ⟨List.map (fun r => List.replicate target.data.length (r.getD 0 0)) f.data,
        f.unit⟩) = .ok
      { wavelength := self.wavelength, model_names := some mn,
        apertures := some target,
        flux := some ⟨List.map
          (fun r => List.replicate target.data.length (r.getD 0 0)) f.data, f.unit⟩,
        error := none, radius_sigma_50 := none, radius_cumul_99 := none } := by
    apply set_flux_valid
      { wavelength := self.wavelength, model_names := some mn,
        apertures := some target, flux := none, error := none,
        radius_sigma_50 := none, radius_cumul_99 := none }
      mn ⟨List.map (fun r => List.replicate target.data.length (r.getD 0 0)) f.data,
        f.unit⟩ rfl hfu
    · rw [List.length_map]
      exact hflen
    · rw [List.all_eq_true]
      intro r hr
      rcases List.mem_map.mp hr with ⟨row, hrow, rfl⟩
      simp [ConvolvedFluxes.n_ap]
  rw [h1, ok_bind]
  have h2 : ConvolvedFluxes.set_error
      { wavelength := self.wavelength, model_names := some mn,
        apertures := some target,
        flux := some ⟨List.map
          (fun r => List.replicate target.data.length (r.getD 0 0)) f.data, f.unit⟩,
        error := none, radius_sigma_50 := none, radius_cumul_99 := none }
      (some ⟨List.map (fun r => List.replicate target.data.length (r.getD 0 0)) e.data,
        e.unit⟩) = .ok
      { wavelength := self.wavelength, model_names := some mn,
        apertures := some target,
        flux := some ⟨List.map
          (fun r => List.replicate target.data.length (r.getD 0 0)) f.data, f.unit⟩,
        error := some ⟨List.map
          (fun r => List.replicate target.data.length (r.getD 0 0)) e.data, e.unit⟩,
        radius_sigma_50 := none, radius_cumul_99 := none } := by
    apply set_error_valid
      { wavelength := self.wavelength, model_names := some mn,
        apertures := some target,
        flux := some ⟨List.map
          (fun r => List.replicate target.data.length (r.getD 0 0)) f.data, f.unit⟩,
        error := none, radius_sigma_50 := none, radius_cumul_99 := none }
      mn ⟨List.map (fun r => List.replicate target.data.length (r.getD 0 0)) e.data,
        e.unit⟩ rfl heu
    · rw [List.length_map]
      exact helen
    · rw [List.all_eq_true]
      intro r hr
      rcases List.mem_map.mp hr with ⟨row, hrow, rfl⟩
      simp [ConvolvedFluxes.n_ap]
  rw [h2, ok_bind]
  refine ⟨_, _, rfl, ?_, ?_, ?_⟩
  · rw [copyRadii_flux]
  · rw [copyRadii_error]
  · intro qf hqf
    rw [copyRadii_flux] at hqf
    have hqf' : qf = ⟨List.map
        (fun r => List.replicate target.data.length (r.getD 0 0)) f.data, f.unit⟩ := by
      injection hqf.symm
    subst hqf'
    constructor
    · simpa using hflen
    · intro i hi
      have hif : i < f.data.length := by omega
      exact getD_map_lt _ f.data i hif [] []
lemma pure_ok_bind {α β : Type} (a : α) (f : α → Except String β) :
    ((pure a : Except String α) >>= f) = f a := rfl

lemma isLengthUnit_unitDim {u : PhysUnit} (h : isLengthUnit u = true) : unitDim u = 0 := by
  simpa [isLengthUnit] using h

/-- Full characterization of `read` after `write` on a valid instance:
the round-trip succeeds, the result is `__eq__`-equal to the original, and
the derived radius columns are written (in au) and read back verbatim when
an aperture axis is present, absent otherwise. -/
lemma write_read_char (c : ConvolvedFluxes) (hv : validCF c = true) :
    ∃ ff c', c.write = some ff ∧ ConvolvedFluxes.read ff = .ok c' ∧ c.eqB c' = true ∧
      (∀ a, c.apertures = some a →
        ff.convolved.radius_sigma_50 = some (c.find_radius_sigma (1 / 2)) ∧
        ff.convolved.radius_cumul_99 = some (c.find_radius_cumul (99 / 100)) ∧
        c'.radius_sigma_50 = some ⟨(c.find_radius_sigma (1 / 2)).data,
          (c.find_radius_sigma (1 / 2)).unit⟩ ∧
        c'.radius_cumul_99 = some ⟨(c.find_radius_cumul (99 / 100)).data,
          (c.find_radius_sigma (1 / 2)).unit⟩) ∧
      (c.apertures = none →
        ff.convolved.radius_sigma_50 = none ∧
        ff.convolved.radius_cumul_99 = none ∧
        c'.radius_sigma_50 = none ∧ c'.radius_cumul_99 = none) := by
  obtain ⟨mn, f, e, hmn, hf, he, hw, hap, hfu, hflen, hfrows, heu, helen, herows⟩ :=
    validCF_destruct c hv
  rcases hcw : c.wavelength with _ | w <;> rcases hapc : c.apertures with _ | a
  -- wavelength none, apertures none
  · rw [ConvolvedFluxes.n_ap, hapc] at hfrows herows
    dsimp only at hfrows herows
    have hread : ConvolvedFluxes.read
        { filtwav := none, nmodels := some mn.length, nap := c.n_ap,
          convolved :=
            { model_name := mn, total_flux := ColData.two f.data,
              total_flux_unit := f.unit,
              total_flux_err := ColData.two e.data, total_flux_err_unit := e.unit,
              radius_sigma_50 := none, radius_cumul_99 := none },
          aperturesHDU := none } = .ok
        { wavelength := none, model_names := some mn, apertures := none,
          flux := some ⟨f.data, f.unit⟩, error := some ⟨e.data, e.unit⟩,
          radius_sigma_50 := none, radius_cumul_99 := none } := by
      simp only [ConvolvedFluxes.read, Option.map_none']
      rw [set_wavelength_valid _ none rfl]
      rw [ok_bind]
      rw [pure_ok_bind]
      rw [ConvolvedFluxes.set_model_names]
      rw [ok_bind]
      dsimp only
      rw [pure_ok_bind]
      rw [set_flux_valid
        { wavelength := none, model_names := some mn, apertures := none,
          flux := none, error := none,
          radius_sigma_50 := none, radius_cumul_99 := none }
        mn ⟨f.data, f.unit⟩ rfl hfu hflen hfrows]
      rw [ok_bind]
      rw [pure_ok_bind]
      rw [set_error_valid
        { wavelength := none, model_names := some mn, apertures := none,
          flux := some ⟨f.data, f.unit⟩, error := none,
          radius_sigma_50 := none, radius_cumul_99 := none }
        mn ⟨e.data, e.unit⟩ rfl heu helen herows]
      rw [ok_bind]
      rfl
    have heq : c.eqB
        { wavelength := none, model_names := some mn, apertures := none,
          flux := some ⟨f.data, f.unit⟩, error := some ⟨e.data, e.unit⟩,
          radius_sigma_50 := none, radius_cumul_99 := none } = true := by
      unfold ConvolvedFluxes.eqB
      rw [hcw, hmn, hapc, hf, he]
      simp only [Bool.and_eq_true]
      refine ⟨⟨⟨⟨rfl, ?_⟩, rfl⟩, ?_⟩, ?_⟩
      · simp
      · exact qty2EqB_refl f
      · exact qty2EqB_refl e
    simp only [ConvolvedFluxes.write, hmn, hf, he, hcw, hapc, Option.map_none']
    exact ⟨_, _, rfl, hread, heq,
      fun a' ha' => by simp [hapc] at ha',
      fun _ => ⟨rfl, rfl, rfl, rfl⟩⟩
  -- wavelength none, apertures some
  · rw [hapc] at hap
    rw [Bool.and_eq_true] at hap
    obtain ⟨haU, haPos⟩ := hap
    rw [ConvolvedFluxes.n_ap, hapc] at hfrows herows
    dsimp only at hfrows herows
    have hread : ConvolvedFluxes.read
        { filtwav := none, nmodels := some mn.length, nap := c.n_ap,
          convolved :=
            { model_name := mn, total_flux := ColData.two f.data,
              total_flux_unit := f.unit,
              total_flux_err := ColData.two e.data, total_flux_err_unit := e.unit,
              radius_sigma_50 := some (c.find_radius_sigma (1 / 2)),
              radius_cumul_99 := some (c.find_radius_cumul (99 / 100)) },
          aperturesHDU := some a } = .ok
        { wavelength := none, model_names := some mn, apertures := some a,
          flux := some ⟨f.data, f.unit⟩, error := some ⟨e.data, e.unit⟩,
          radius_sigma_50 := some ⟨(c.find_radius_sigma (1 / 2)).data,
            (c.find_radius_sigma (1 / 2)).unit⟩,
          radius_cumul_99 := some ⟨(c.find_radius_cumul (99 / 100)).data,
            (c.find_radius_sigma (1 / 2)).unit⟩ } := by
      simp only [ConvolvedFluxes.read, Option.map_none']
      rw [set_wavelength_valid _ none rfl]
      rw [ok_bind]
      rw [set_apertures_valid _ a haU haPos]
      rw [ok_bind]
      rw [ConvolvedFluxes.set_model_names]
      rw [ok_bind]
      dsimp only
      rw [pure_ok_bind]
      rw [set_flux_valid
        { wavelength := none, model_names := some mn, apertures := some a,
          flux := none, error := none,
          radius_sigma_50 := none, radius_cumul_99 := none }
        mn ⟨f.data, f.unit⟩ rfl hfu hflen hfrows]
      rw [ok_bind]
      rw [pure_ok_bind]
      rw [set_error_valid
        { wavelength := none, model_names := some mn, apertures := some a,
          flux := some ⟨f.data, f.unit⟩, error := none,
          radius_sigma_50 := none, radius_cumul_99 := none }
        mn ⟨e.data, e.unit⟩ rfl heu helen herows]
      rw [ok_bind]
      rfl
    have heq : c.eqB
        { wavelength := none, model_names := some mn, apertures := some a,
          flux := some ⟨f.data, f.unit⟩, error := some ⟨e.data, e.unit⟩,
          radius_sigma_50 := some ⟨(c.find_radius_sigma (1 / 2)).data,
            (c.find_radius_sigma (1 / 2)).unit⟩,
          radius_cumul_99 := some ⟨(c.find_radius_cumul (99 / 100)).data,
            (c.find_radius_sigma (1 / 2)).unit⟩ } = true := by
      unfold ConvolvedFluxes.eqB
      rw [hcw, hmn, hapc, hf, he]
      simp only [Bool.and_eq_true]
      refine ⟨⟨⟨⟨rfl, ?_⟩, ?_⟩, ?_⟩, ?_⟩
      · simp
      · exact qty1EqB_refl a
      · exact qty2EqB_refl f
      · exact qty2EqB_refl e
    simp only [ConvolvedFluxes.write, hmn, hf, he, hcw, hapc, Option.map_none']
    exact ⟨_, _, rfl, hread, heq,
      fun a' ha' => ⟨rfl, rfl, rfl, rfl⟩,
      fun h => by simp [hapc] at h⟩
  -- wavelength some, apertures none
  · rw [hcw] at hw
    rw [Bool.and_eq_true] at hw
    obtain ⟨hw1, hw2⟩ := hw
    rw [decide_eq_true_eq] at hw2
    rw [ConvolvedFluxes.n_ap, hapc] at hfrows herows
    dsimp only at hfrows herows
    have hread : ConvolvedFluxes.read
        { filtwav := some (w.val * uscale w.unit / uscale PhysUnit.micron),
          nmodels := some mn.length, nap := c.n_ap,
          convolved :=
            { model_name := mn, total_flux := ColData.two f.data,
              total_flux_unit := f.unit,
              total_flux_err := ColData.two e.data, total_flux_err_unit := e.unit,
              radius_sigma_50 := none, radius_cumul_99 := none },
          aperturesHDU := none } = .ok
        { wavelength := some ⟨w.val * uscale w.unit / uscale PhysUnit.micron,
            PhysUnit.micron⟩,
          model_names := some mn, apertures := none,
          flux := some ⟨f.data, f.unit⟩, error := some ⟨e.data, e.unit⟩,
          radius_sigma_50 := none, radius_cumul_99 := none } := by
      simp only [ConvolvedFluxes.read, Option.map_some']
      rw [set_wavelength_valid _
        (some ⟨w.val * uscale w.unit / uscale .micron, .micron⟩)
        (by
          have hp : 0 < w.val * uscale w.unit / uscale PhysUnit.micron :=
            div_pos (mul_pos hw2 (uscale_pos w.unit)) (uscale_pos .micron)
          simp [isLengthUnit, unitDim, hp])]
      rw [ok_bind]
      rw [pure_ok_bind]
      rw [ConvolvedFluxes.set_model_names]
      rw [ok_bind]
      dsimp only
      rw [pure_ok_bind]
      rw [set_flux_valid
        { wavelength := some ⟨w.val * uscale w.unit / uscale PhysUnit.micron,
            PhysUnit.micron⟩,
          model_names := some mn, apertures := none, flux := none, error := none,
          radius_sigma_50 := none, radius_cumul_99 := none }
        mn ⟨f.data, f.unit⟩ rfl hfu hflen hfrows]
      rw [ok_bind]
      rw [pure_ok_bind]
      rw [set_error_valid
        { wavelength := some ⟨w.val * uscale w.unit / uscale PhysUnit.micron,
            PhysUnit.micron⟩,
          model_names := some mn, apertures := none,
          flux := some ⟨f.data, f.unit⟩, error := none,
          radius_sigma_50 := none, radius_cumul_99 := none }
        mn ⟨e.data, e.unit⟩ rfl heu helen herows]
      rw [ok_bind]
      rfl
    have heq : c.eqB
        { wavelength := some ⟨w.val * uscale w.unit / uscale PhysUnit.micron,
            PhysUnit.micron⟩,
          model_names := some mn, apertures := none,
          flux := some ⟨f.data, f.unit⟩, error := some ⟨e.data, e.unit⟩,
          radius_sigma_50 := none, radius_cumul_99 := none } = true := by
      unfold ConvolvedFluxes.eqB
      rw [hcw, hmn, hapc, hf, he]
      simp only [Bool.and_eq_true]
      refine ⟨⟨⟨⟨?_, ?_⟩, rfl⟩, ?_⟩, ?_⟩
      · simp only [qtySEqB, Bool.and_eq_true, decide_eq_true_eq]
        constructor
        · rw [isLengthUnit_unitDim hw1]
          rfl
        · exact (div_mul_cancel₀ _ (uscale_ne_zero .micron)).symm
      · simp
      · exact qty2EqB_refl f
      · exact qty2EqB_refl e
    simp only [ConvolvedFluxes.write, hmn, hf, he, hcw, hapc, Option.map_some']
    exact ⟨_, _, rfl, hread, heq,
      fun a' ha' => by simp [hapc] at ha',
      fun _ => ⟨rfl, rfl, rfl, rfl⟩⟩
  -- wavelength some, apertures some
  · rw [hcw] at hw
    rw [hapc] at hap
    rw [Bool.and_eq_true] at hw hap
    obtain ⟨hw1, hw2⟩ := hw
    obtain ⟨haU, haPos⟩ := hap
    rw [decide_eq_true_eq] at hw2
    rw [ConvolvedFluxes.n_ap, hapc] at hfrows herows
    dsimp only at hfrows herows
    have hread : ConvolvedFluxes.read
        { filtwav := some (w.val * uscale w.unit / uscale PhysUnit.micron),
          nmodels := some mn.length, nap := c.n_ap,
          convolved :=
            { model_name := mn, total_flux := ColData.two f.data,
              total_flux_unit := f.unit,
              total_flux_err := ColData.two e.data, total_flux_err_unit := e.unit,
              radius_sigma_50 := some (c.find_radius_sigma (1 / 2)),
              radius_cumul_99 := some (c.find_radius_cumul (99 / 100)) },
          aperturesHDU := some a } = .ok
        { wavelength := some ⟨w.val * uscale w.unit / uscale PhysUnit.micron,
            PhysUnit.micron⟩,
          model_names := some mn, apertures := some a,
          flux := some ⟨f.data, f.unit⟩, error := some ⟨e.data, e.unit⟩,
          radius_sigma_50 := some ⟨(c.find_radius_sigma (1 / 2)).data,
            (c.find_radius_sigma (1 / 2)).unit⟩,
          radius_cumul_99 := some ⟨(c.find_radius_cumul (99 / 100)).data,
            (c.find_radius_sigma (1 / 2)).unit⟩ } := by
      simp only [ConvolvedFluxes.read, Option.map_some']
      rw [set_wavelength_valid _
        (some ⟨w.val * uscale w.unit / uscale .micron, .micron⟩)
        (by
          have hp : 0 < w.val * uscale w.unit / uscale PhysUnit.micron :=
            div_pos (mul_pos hw2 (uscale_pos w.unit)) (uscale_pos .micron)
          simp [isLengthUnit, unitDim, hp])]
      rw [ok_bind]
      rw [set_apertures_valid _ a haU haPos]
      rw [ok_bind]
      rw [ConvolvedFluxes.set_model_names]
      rw [ok_bind]
      dsimp only
      rw [pure_ok_bind]
      rw [set_flux_valid
        { wavelength := some ⟨w.val * uscale w.unit / uscale PhysUnit.micron,
            PhysUnit.micron⟩,
          model_names := some mn, apertures := some a, flux := none, error := none,
          radius_sigma_50 := none, radius_cumul_99 := none }
        mn ⟨f.data, f.unit⟩ rfl hfu hflen hfrows]
      rw [ok_bind]
      rw [pure_ok_bind]
      rw [set_error_valid
        { wavelength := some ⟨w.val * uscale w.unit / uscale PhysUnit.micron,
            PhysUnit.micron⟩,
          model_names := some mn, apertures := some a,
          flux := some ⟨f.data, f.unit⟩, error := none,
          radius_sigma_50 := none, radius_cumul_99 := none }
        mn ⟨e.data, e.unit⟩ rfl heu helen herows]
      rw [ok_bind]
      rfl
    have heq : c.eqB
        { wavelength := some ⟨w.val * uscale w.unit / uscale PhysUnit.micron,
            PhysUnit.micron⟩,
          model_names := some mn, apertures := some a,
          flux := some ⟨f.data, f.unit⟩, error := some ⟨e.data, e.unit⟩,
          radius_sigma_50 := some ⟨(c.find_radius_sigma (1 / 2)).data,
            (c.find_radius_sigma (1 / 2)).unit⟩,
          radius_cumul_99 := some ⟨(c.find_radius_cumul (99 / 100)).data,
            (c.find_radius_sigma (1 / 2)).unit⟩ } = true := by
      unfold ConvolvedFluxes.eqB
      rw [hcw, hmn, hapc, hf, he]
      simp only [Bool.and_eq_true]
      refine ⟨⟨⟨⟨?_, ?_⟩, ?_⟩, ?_⟩, ?_⟩
      · simp only [qtySEqB, Bool.and_eq_true, decide_eq_true_eq]
        constructor
        · rw [isLengthUnit_unitDim hw1]
          rfl
        · exact (div_mul_cancel₀ _ (uscale_ne_zero .micron)).symm
      · simp
      · exact qty1EqB_refl a
      · exact qty2EqB_refl f
      · exact qty2EqB_refl e
    simp only [ConvolvedFluxes.write, hmn, hf, he, hcw, hapc, Option.map_some']
    exact ⟨_, _, rfl, hread, heq,
      fun a' ha' => ⟨rfl, rfl, rfl, rfl⟩,
      fun h => by simp [hapc] at h⟩


lemma find_radius_sigma_unit (c : ConvolvedFluxes) (fr : ℚ) :
    (c.find_radius_sigma fr).unit = .au := by
  unfold ConvolvedFluxes.find_radius_sigma
  rcases c.model_names <;> rcases c.apertures <;> rcases c.flux <;> rfl

lemma find_radius_cumul_unit (c : ConvolvedFluxes) (fr : ℚ) :
    (c.find_radius_cumul fr).unit = .au := by
  unfold ConvolvedFluxes.find_radius_cumul
  rcases c.model_names <;> rcases c.apertures <;> rcases c.flux <;> rfl

/-- C1: for every valid instance (with or without an aperture axis),
`write` followed by `read` yields an instance equal to the original under
`__eq__` — wavelength, model_names, apertures, flux and error are
reproduced element-wise (exactly, in this rational-arithmetic embedding;
the wavelength comes back normalised to micron but unit-aware equality
holds). -/
theorem c1_round_trip (c : ConvolvedFluxes) (hv : validCF c = true) :
    ∃ ff c', c.write = some ff ∧ ConvolvedFluxes.read ff = .ok c' ∧
      c.eqB c' = true := by
  obtain ⟨ff, c', h1, h2, h3, _, _⟩ := write_read_char c hv
  exact ⟨ff, c', h1, h2, h3⟩

/-- C5: for every valid instance written with an aperture axis (so that the
RADIUS_SIGMA_50 and RADIUS_CUMUL_99 columns are present in the file) `read`
assigns `radius_sigma_50` and `radius_cumul_99` verbatim from those columns,
each value with its column's own recorded unit (both au for written files)
and with no recomputation; and when the instance is written without an
aperture axis, so that the columns are absent, `read` leaves both
attributes silently unset without error. -/
theorem c5_radius_verbatim (c : ConvolvedFluxes) (hv : validCF c = true) :
    (∀ a, c.apertures = some a →
      ∃ ff c' r50 r99, c.write = some ff ∧
        ff.convolved.radius_sigma_50 = some r50 ∧
        ff.convolved.radius_cumul_99 = some r99 ∧
        ConvolvedFluxes.read ff = .ok c' ∧
        c'.radius_sigma_50 = some ⟨r50.data, r50.unit⟩ ∧
        c'.radius_cumul_99 = some ⟨r99.data, r99.unit⟩) ∧
    (c.apertures = none →
      ∃ ff c', c.write = some ff ∧
        ff.convolved.radius_sigma_50 = none ∧
        ff.convolved.radius_cumul_99 = none ∧
        ConvolvedFluxes.read ff = .ok c' ∧
        c'.radius_sigma_50 = none ∧ c'.radius_cumul_99 = none) := by
  obtain ⟨ff, c', h1, h2, _, h4, h5⟩ := write_read_char c hv
  constructor
  · intro a ha
    obtain ⟨hf50, hf99, hc50, hc99⟩ := h4 a ha
    refine ⟨ff, c', c.find_radius_sigma (1 / 2), c.find_radius_cumul (99 / 100),
      h1, hf50, hf99, h2, hc50, ?_⟩
    rw [hc99, find_radius_sigma_unit, find_radius_cumul_unit]
  · intro ha
    obtain ⟨hf50, hf99, hc50, hc99⟩ := h5 ha
    exact ⟨ff, c', h1, hf50, hf99, h2, hc50, hc99⟩

lemma nonDecrB_get {l : List ℚ} (h : nonDecrB l = true) :
    ∀ k, k + 1 < l.length → l.getD k 0 ≤ l.getD (k + 1) 0 := by
  intro k hk
  have := List.all_eq_true.mp h k (List.mem_range.mpr (by omega))
  simpa using this

lemma chain_getD_le {l : List ℚ}
    (hchain : ∀ k, k + 1 < l.length → l.getD k 0 ≤ l.getD (k + 1) 0) :
    ∀ i j, i ≤ j → j < l.length → l.getD i 0 ≤ l.getD j 0 := by
  intro i j hij hj
  induction j with
  | zero =>
    obtain rfl : i = 0 := Nat.le_zero.mp hij
    exact le_refl _
  | succ m ih =>
    by_cases h : i = m + 1
    · subst h
      exact le_refl _
    · exact le_trans (ih (by omega) (by omega)) (hchain m hj)

/-- The interpolation loop's fold either leaves the zero initialization (no
pair matched) or returns the interpolated value at the greatest matching
pair. -/
lemma cumul_fold_cases (aps fl : List ℚ) (r : ℚ) :
    ((∀ j, j < aps.length - 1 → bracketB fl r j = false) ∧
      (List.range (aps.length - 1)).foldl
        (fun acc ia => if bracketB fl r ia then interpVal aps fl r ia else acc) 0 = 0) ∨
    (∃ j, j < aps.length - 1 ∧ bracketB fl r j = true ∧
      (List.range (aps.length - 1)).foldl
        (fun acc ia => if bracketB fl r ia then interpVal aps fl r ia else acc) 0 =
        interpVal aps fl r j) := by
  rw [foldl_overwrite]
  rcases hfind : (List.range (aps.length - 1)).reverse.find? (bracketB fl r) with _ | j
  · left
    constructor
    · intro j hj
      have := List.find?_eq_none.mp hfind j
        (List.mem_reverse.mpr (List.mem_range.mpr hj))
      simpa using this
    · rfl
  · right
    refine ⟨j, ?_, List.find?_some hfind, rfl⟩
    exact List.mem_range.mp (List.mem_reverse.mp (List.mem_of_find?_eq_some hfind))

lemma bracketB_iff (fl : List ℚ) (r : ℚ) (j : ℕ) :
    bracketB fl r j = true ↔ fl.getD j 0 ≤ r ∧ r < fl.getD (j + 1) 0 := by
  rw [bracketB, Bool.and_eq_true, decide_eq_true_eq, decide_eq_true_eq]

/-- Value bounds of the interpolated assignment on a matched pair. -/
lemma interpVal_mem (aps fl : List ℚ) (r : ℚ) (j : ℕ)
    (hb : bracketB fl r j = true)
    (hstep : aps.getD j 0 < aps.getD (j + 1) 0) :
    aps.getD j 0 ≤ interpVal aps fl r j ∧ interpVal aps fl r j < aps.getD (j + 1) 0 := by
  obtain ⟨h1, h2⟩ := (bracketB_iff fl r j).mp hb
  have hd : 0 < fl.getD (j + 1) 0 - fl.getD j 0 := by linarith
  have ht0 : 0 ≤ (r - fl.getD j 0) / (fl.getD (j + 1) 0 - fl.getD j 0) :=
    div_nonneg (by linarith) (le_of_lt hd)
  have ht1 : (r - fl.getD j 0) / (fl.getD (j + 1) 0 - fl.getD j 0) < 1 :=
    (div_lt_one hd).mpr (by linarith)
  have hm0 : 0 ≤ (r - fl.getD j 0) / (fl.getD (j + 1) 0 - fl.getD j 0) *
      (aps.getD (j + 1) 0 - aps.getD j 0) :=
    mul_nonneg ht0 (by linarith)
  have hm1 : (r - fl.getD j 0) / (fl.getD (j + 1) 0 - fl.getD j 0) *
      (aps.getD (j + 1) 0 - aps.getD j 0) < 1 * (aps.getD (j + 1) 0 - aps.getD j 0) :=
    mul_lt_mul_of_pos_right ht1 (by linarith)
  rw [one_mul] at hm1
  unfold interpVal
  constructor
  · linarith
  · linarith

lemma bracket_unique (fl : List ℚ) (r : ℚ)
    (hmono : ∀ k, k + 1 < fl.length → fl.getD k 0 ≤ fl.getD (k + 1) 0)
    (i j : ℕ) (hi : i + 1 < fl.length) (hj : j + 1 < fl.length)
    (hbi : bracketB fl r i = true) (hbj : bracketB fl r j = true) : i = j := by
  obtain ⟨hi1, hi2⟩ := (bracketB_iff fl r i).mp hbi
  obtain ⟨hj1, hj2⟩ := (bracketB_iff fl r j).mp hbj
  by_contra hne
  rcases Nat.lt_or_ge i j with h | h
  · have : fl.getD (i + 1) 0 ≤ fl.getD j 0 := chain_getD_le hmono (i + 1) j h (by omega)
    linarith
  · have hlt : j < i := by omega
    have : fl.getD (j + 1) 0 ≤ fl.getD i 0 := chain_getD_le hmono (j + 1) i hlt (by omega)
    linarith

lemma bracket_exists (fl : List ℚ) (r : ℚ)
    (hn : 1 ≤ fl.length)
    (h0 : fl.getD 0 0 ≤ r) (hlast : r < fl.getD (fl.length - 1) 0) :
    ∃ j, j + 1 < fl.length ∧ bracketB fl r j = true := by
  have hP : ∃ k, r < fl.getD k 0 := ⟨fl.length - 1, hlast⟩
  have hk0 : r < fl.getD (Nat.find hP) 0 := Nat.find_spec hP
  have hk0pos : Nat.find hP ≠ 0 := by
    intro h
    rw [h] at hk0
    exact absurd hk0 (not_lt.mpr h0)
  have hk0le : Nat.find hP ≤ fl.length - 1 := Nat.find_min' hP hlast
  obtain ⟨j, hj⟩ : ∃ j, Nat.find hP = j + 1 := ⟨Nat.find hP - 1, by omega⟩
  have hjlt : ¬ r < fl.getD j 0 := Nat.find_min hP (by omega)
  refine ⟨j, by omega, ?_⟩
  rw [bracketB_iff]
  rw [hj] at hk0
  exact ⟨not_lt.mp hjlt, hk0⟩

lemma cumul_core_le_last (aps fl : List ℚ) (r : ℚ)
    (hpos : ∀ x ∈ aps, 0 < x)
    (hstrict : ∀ k, k + 1 < aps.length → aps.getD k 0 < aps.getD (k + 1) 0)
    (hn : 1 ≤ aps.length) :
    cumul_core aps fl r ≤ aps.getD (aps.length - 1) 0 := by
  have hchain : ∀ k, k + 1 < aps.length → aps.getD k 0 ≤ aps.getD (k + 1) 0 :=
    fun k hk => le_of_lt (hstrict k hk)
  have hlastpos : 0 < aps.getD (aps.length - 1) 0 := by
    rw [List.getD_eq_getElem aps 0 (by omega)]
    exact hpos _ (List.getElem_mem _)
  simp only [cumul_core]
  split_ifs with hhigh hlow
  · exact le_refl _
  · exact chain_getD_le hchain 0 (aps.length - 1) (Nat.zero_le _) (by omega)
  · rcases cumul_fold_cases aps fl r with ⟨_, h0⟩ | ⟨j, hj, hbj, heq⟩
    · rw [h0]
      exact le_of_lt hlastpos
    · rw [heq]
      have hb := interpVal_mem aps fl r j hbj (hstrict j (by omega))
      exact le_trans (le_of_lt hb.2)
        (chain_getD_le hchain (j + 1) (aps.length - 1) (by omega) (by omega))

lemma interpVal_mono_r (aps fl : List ℚ) (r1 r2 : ℚ) (j : ℕ)
    (hb1 : bracketB fl r1 j = true) (hb2 : bracketB fl r2 j = true)
    (h12 : r1 ≤ r2)
    (hstep : aps.getD j 0 ≤ aps.getD (j + 1) 0) :
    interpVal aps fl r1 j ≤ interpVal aps fl r2 j := by
  obtain ⟨h11, h12'⟩ := (bracketB_iff fl r1 j).mp hb1
  obtain ⟨h21, h22⟩ := (bracketB_iff fl r2 j).mp hb2
  have hd : 0 < fl.getD (j + 1) 0 - fl.getD j 0 := by linarith
  have ht : (r1 - fl.getD j 0) / (fl.getD (j + 1) 0 - fl.getD j 0) ≤
      (r2 - fl.getD j 0) / (fl.getD (j + 1) 0 - fl.getD j 0) :=
    div_le_div_of_nonneg_right (by linarith) (le_of_lt hd)
  unfold interpVal
  have := mul_le_mul_of_nonneg_right ht (by linarith :
    (0:ℚ) ≤ aps.getD (j + 1) 0 - aps.getD j 0)
  linarith

/-- Core monotonicity of the cumulative-radius computation in the required
value, for a model row with non-decreasing flux on a positive, strictly
increasing aperture axis. -/
lemma cumul_core_mono (aps fl : List ℚ) (hlen : fl.length = aps.length)
    (hpos : ∀ x ∈ aps, 0 < x)
    (hstrict : ∀ k, k + 1 < aps.length → aps.getD k 0 < aps.getD (k + 1) 0)
    (hmono : ∀ k, k + 1 < fl.length → fl.getD k 0 ≤ fl.getD (k + 1) 0)
    (hn : 1 ≤ aps.length)
    (r1 r2 : ℚ) (h12 : r1 ≤ r2) :
    cumul_core aps fl r1 ≤ cumul_core aps fl r2 := by
  have hchain : ∀ k, k + 1 < aps.length → aps.getD k 0 ≤ aps.getD (k + 1) 0 :=
    fun k hk => le_of_lt (hstrict k hk)
  by_cases hH2 : fl.getD (aps.length - 1) 0 ≤ r2
  · have h2eq : cumul_core aps fl r2 = aps.getD (aps.length - 1) 0 := by
      simp only [cumul_core]
      rw [if_pos hH2]
    rw [h2eq]
    exact cumul_core_le_last aps fl r1 hpos hstrict hn
  · have hH1 : ¬ fl.getD (aps.length - 1) 0 ≤ r1 := fun h => hH2 (le_trans h h12)
    by_cases hL2 : r2 < fl.getD 0 0
    · -- both required values below the first flux: both clamp to the first aperture
      have hL1 : r1 < fl.getD 0 0 := lt_of_le_of_lt h12 hL2
      have e1 : cumul_core aps fl r1 = aps.getD 0 0 := by
        simp only [cumul_core]
        rw [if_neg hH1, if_pos hL1]
      have e2 : cumul_core aps fl r2 = aps.getD 0 0 := by
        simp only [cumul_core]
        rw [if_neg hH2, if_pos hL2]
      rw [e1, e2]
    · -- r2 falls in the interpolation range
      obtain ⟨j2, hj2, hb2⟩ := bracket_exists fl r2 (by omega)
        (not_lt.mp hL2) (by rw [hlen]; exact not_le.mp hH2)
      have hj2n : j2 < aps.length - 1 := by omega
      have e2 : cumul_core aps fl r2 = interpVal aps fl r2 j2 := by
        simp only [cumul_core]
        rw [if_neg hH2, if_neg hL2]
        rcases cumul_fold_cases aps fl r2 with ⟨hnone, _⟩ | ⟨j', hj', hbj', heq⟩
        · exact absurd hb2 (by simp [hnone j2 hj2n])
        · rw [heq]
          have : j' = j2 := bracket_unique fl r2 hmono j' j2
            (by omega) (by omega) hbj' hb2
          rw [this]
      rw [e2]
      by_cases hL1 : r1 < fl.getD 0 0
      · -- r1 clamps to the first aperture, r2 interpolates at or above it
        have e1 : cumul_core aps fl r1 = aps.getD 0 0 := by
          simp only [cumul_core]
          rw [if_neg hH1, if_pos hL1]
        rw [e1]
        exact le_trans (chain_getD_le hchain 0 j2 (Nat.zero_le _) (by omega))
          (interpVal_mem aps fl r2 j2 hb2 (hstrict j2 (by omega))).1
      · -- both interpolate
        obtain ⟨j1, hj1, hb1⟩ := bracket_exists fl r1 (by omega)
          (not_lt.mp hL1) (by rw [hlen]; exact not_le.mp hH1)
        have hj1n : j1 < aps.length - 1 := by omega
        have e1 : cumul_core aps fl r1 = interpVal aps fl r1 j1 := by
          simp only [cumul_core]
          rw [if_neg hH1, if_neg hL1]
          rcases cumul_fold_cases aps fl r1 with ⟨hnone, _⟩ | ⟨j', hj', hbj', heq⟩
          · exact absurd hb1 (by simp [hnone j1 hj1n])
          · rw [heq]
            have : j' = j1 := bracket_unique fl r1 hmono j' j1
              (by omega) (by omega) hbj' hb1
            rw [this]
        rw [e1]
        have hj12 : j1 ≤ j2 := by
          by_contra hcon
          have h21 : j2 + 1 ≤ j1 := by omega
          obtain ⟨hb11, hb12⟩ := (bracketB_iff fl r1 j1).mp hb1
          obtain ⟨hb21, hb22⟩ := (bracketB_iff fl r2 j2).mp hb2
          have : fl.getD (j2 + 1) 0 ≤ fl.getD j1 0 :=
            chain_getD_le hmono (j2 + 1) j1 h21 (by omega)
          linarith
        rcases Nat.lt_or_ge j1 j2 with hlt | hge
        · -- strictly nested: r1's value stays below aperture j1+1 ≤ aperture j2
          have hm1 := interpVal_mem aps fl r1 j1 hb1 (hstrict j1 (by omega))
          have hm2 := interpVal_mem aps fl r2 j2 hb2 (hstrict j2 (by omega))
          have : aps.getD (j1 + 1) 0 ≤ aps.getD j2 0 :=
            chain_getD_le hchain (j1 + 1) j2 hlt (by omega)
          linarith
        · have : j1 = j2 := by omega
          subst this
          exact interpVal_mono_r aps fl r1 r2 j1 hb1 hb2 h12
            (le_of_lt (hstrict j1 (by omega)))

/-- C8 (amended): for a model whose flux row is monotonically non-decreasing
along a positive, strictly increasing aperture axis, and for fractions
`f1 ≤ f2 ≤ 1`, the radius returned by `find_radius_cumul` at `f1` is at
most the radius returned at `f2`.  (The restriction to fractions at most 1
is what the counterexample forces: for fractions above 1 with negative
fluxes the required value moves backwards.) -/
theorem c8_cumul_monotone (c : ConvolvedFluxes) (mn : List String) (a : Qty1)
    (f : Qty2) (i : ℕ) (f1 f2 : ℚ)
    (hmn : c.model_names = some mn) (ha : c.apertures = some a)
    (hf : c.flux = some f) (hi : i < mn.length)
    (hn : 1 ≤ a.data.length)
    (hpos : a.data.all (fun x => decide (0 < x)) = true)
    (hstrict : strictIncrB a.data = true)
    (hrowlen : (f.data.getD i []).length = a.data.length)
    (hmono : nonDecrB (f.data.getD i []) = true)
    (h12 : f1 ≤ f2) (h2 : f2 ≤ 1) :
    (c.find_radius_cumul f1).data.getD i 0 ≤
      (c.find_radius_cumul f2).data.getD i 0 := by
  unfold ConvolvedFluxes.find_radius_cumul
  rw [hmn, ha, hf]
  show (((List.range mn.length).map
    (fun i => cumul_row a.data (f.data.getD i []) f1 *
      (uscale a.unit / uscale .au))).getD i 0) ≤
    (((List.range mn.length).map
    (fun i => cumul_row a.data (f.data.getD i []) f2 *
      (uscale a.unit / uscale .au))).getD i 0)
  rw [getD_range_map _ _ _ hi, getD_range_map _ _ _ hi]
  have hk : 0 ≤ uscale a.unit / uscale PhysUnit.au :=
    le_of_lt (div_pos (uscale_pos a.unit) (uscale_pos .au))
  apply mul_le_mul_of_nonneg_right _ hk
  -- monotonicity of the per-row radius in the fraction
  unfold cumul_row
  set row := f.data.getD i [] with hrow
  have hposM : ∀ x ∈ a.data, 0 < x := by
    intro x hx
    have := List.all_eq_true.mp hpos x hx
    simpa using this
  have hstrictG := strictIncrB_get hstrict
  have hmonoG := nonDecrB_get hmono
  by_cases hL : 0 ≤ row.getD (a.data.length - 1) 0
  · -- required is monotone in the fraction
    exact cumul_core_mono a.data row hrowlen hposM hstrictG hmonoG hn _ _
      (mul_le_mul_of_nonneg_right h12 hL)
  · -- negative total flux: both required values hit the final clamp
    push_neg at hL
    have hreq : ∀ fr : ℚ, fr ≤ 1 →
        row.getD (a.data.length - 1) 0 ≤ fr * row.getD (a.data.length - 1) 0 := by
      intro fr hfr
      nlinarith [mul_nonneg (by linarith : (0:ℚ) ≤ 1 - fr)
        (by linarith : (0:ℚ) ≤ -(row.getD (a.data.length - 1) 0))]
    have e1 : cumul_core a.data row (f1 * row.getD (a.data.length - 1) 0) =
        a.data.getD (a.data.length - 1) 0 := by
      simp only [cumul_core]
      rw [if_pos (hreq f1 (le_trans h12 h2))]
    have e2 : cumul_core a.data row (f2 * row.getD (a.data.length - 1) 0) =
        a.data.getD (a.data.length - 1) 0 := by
      simp only [cumul_core]
      rw [if_pos (hreq f2 h2)]
    rw [e1, e2]

/-- C8 (counterexample): the claim as stated — monotone for *every* pair of
fractions `f1 ≤ f2` — fails on the instance with apertures `[10, 20]` au
and the (non-decreasing, negative) flux row `[-4, -2]` mJy: at fractions
`1 ≤ 2` the returned radii are 20 au and 10 au respectively. -/
theorem c8_counterexample :
    nonDecrB [-4, -2] = true ∧ (1 : ℚ) ≤ 2 ∧
    ¬ ((ConvolvedFluxes.find_radius_cumul
        { model_names := some ["m"]
          apertures := some ⟨[10, 20], .au⟩
          flux := some ⟨[[-4, -2]], .mJy⟩
          error := some ⟨[[0, 0]], .mJy⟩ } 1).data.getD 0 0 ≤
      (ConvolvedFluxes.find_radius_cumul
        { model_names := some ["m"]
          apertures := some ⟨[10, 20], .au⟩
          flux := some ⟨[[-4, -2]], .mJy⟩
          error := some ⟨[[0, 0]], .mJy⟩ } 2).data.getD 0 0) := by
  refine ⟨by norm_num [nonDecrB, List.range_succ], by norm_num, ?_⟩
  norm_num [ConvolvedFluxes.find_radius_cumul, cumul_row, cumul_core, bracketB,
    interpVal, List.range_succ, npMax, npMin, uscale]

theorem c8_witness :
    (0 : ℕ) < 1 ∧ 1 ≤ ([1, 2] : List ℚ).length ∧
    strictIncrB [1, 2] = true ∧ nonDecrB [1, 3] = true ∧
    (ConvolvedFluxes.find_radius_cumul
        { model_names := some ["m"]
          apertures := some ⟨[1, 2], .au⟩
          flux := some ⟨[[1, 3]], .mJy⟩
          error := some ⟨[[0, 0]], .mJy⟩ } (1 / 4)).data.getD 0 0 ≤
      (ConvolvedFluxes.find_radius_cumul
        { model_names := some ["m"]
          apertures := some ⟨[1, 2], .au⟩
          flux := some ⟨[[1, 3]], .mJy⟩
          error := some ⟨[[0, 0]], .mJy⟩ } (3 / 4)).data.getD 0 0 :=
  ⟨by norm_num, by norm_num, by norm_num [strictIncrB, List.range_succ],
    by norm_num [nonDecrB, List.range_succ],
    c8_cumul_monotone
      { model_names := some ["m"]
        apertures := some ⟨[1, 2], .au⟩
        flux := some ⟨[[1, 3]], .mJy⟩
        error := some ⟨[[0, 0]], .mJy⟩ }
      ["m"] ⟨[1, 2], .au⟩ ⟨[[1, 3]], .mJy⟩ 0 (1 / 4) (3 / 4)
      rfl rfl rfl (by norm_num) (by norm_num)
      (by norm_num) (by norm_num [strictIncrB, List.range_succ])
      (by norm_num) (by norm_num [nonDecrB, List.range_succ])
      (by norm_num) (by norm_num)⟩

theorem c1_witness :
    validCF
      { wavelength := some ⟨1, .micron⟩
        model_names := some ["m1", "m2"]
        apertures := some ⟨[1, 2], .au⟩
        flux := some ⟨[[1, 2], [3, 4]], .mJy⟩
        error := some ⟨[[0, 0], [0, 0]], .mJy⟩ } = true ∧
    (∃ ff c',
      ConvolvedFluxes.write
        { wavelength := some ⟨1, .micron⟩
          model_names := some ["m1", "m2"]
          apertures := some ⟨[1, 2], .au⟩
          flux := some ⟨[[1, 2], [3, 4]], .mJy⟩
          error := some ⟨[[0, 0], [0, 0]], .mJy⟩ } = some ff ∧
      ConvolvedFluxes.read ff = .ok c' ∧
      ConvolvedFluxes.eqB
        { wavelength := some ⟨1, .micron⟩
          model_names := some ["m1", "m2"]
          apertures := some ⟨[1, 2], .au⟩
          flux := some ⟨[[1, 2], [3, 4]], .mJy⟩
          error := some ⟨[[0, 0], [0, 0]], .mJy⟩ } c' = true) :=
  ⟨by norm_num [validCF, isLengthUnit, isFluxUnit, unitDim, ConvolvedFluxes.n_ap],
    c1_round_trip _
      (by norm_num [validCF, isLengthUnit, isFluxUnit, unitDim, ConvolvedFluxes.n_ap])⟩

theorem c5_witness :
    validCF
      { model_names := some ["m1"]
        apertures := some ⟨[1, 2], .au⟩
        flux := some ⟨[[1, 2]], .mJy⟩
        error := some ⟨[[0, 0]], .mJy⟩ } = true ∧
    ((∀ a, ConvolvedFluxes.apertures
        { model_names := some ["m1"]
          apertures := some ⟨[1, 2], .au⟩
          flux := some ⟨[[1, 2]], .mJy⟩
          error := some ⟨[[0, 0]], .mJy⟩ } = some a →
      ∃ ff c' r50 r99,
        ConvolvedFluxes.write
          { model_names := some ["m1"]
            apertures := some ⟨[1, 2], .au⟩
            flux := some ⟨[[1, 2]], .mJy⟩
            error := some ⟨[[0, 0]], .mJy⟩ } = some ff ∧
        ff.convolved.radius_sigma_50 = some r50 ∧
        ff.convolved.radius_cumul_99 = some r99 ∧
        ConvolvedFluxes.read ff = .ok c' ∧
        c'.radius_sigma_50 = some ⟨r50.data, r50.unit⟩ ∧
        c'.radius_cumul_99 = some ⟨r99.data, r99.unit⟩) ∧
    (ConvolvedFluxes.apertures
        { model_names := some ["m1"]
          apertures := some ⟨[1, 2], .au⟩
          flux := some ⟨[[1, 2]], .mJy⟩
          error := some ⟨[[0, 0]], .mJy⟩ } = none →
      ∃ ff c',
        ConvolvedFluxes.write
          { model_names := some ["m1"]
            apertures := some ⟨[1, 2], .au⟩
            flux := some ⟨[[1, 2]], .mJy⟩
            error := some ⟨[[0, 0]], .mJy⟩ } = some ff ∧
        ff.convolved.radius_sigma_50 = none ∧
        ff.convolved.radius_cumul_99 = none ∧
        ConvolvedFluxes.read ff = .ok c' ∧
        c'.radius_sigma_50 = none ∧ c'.radius_cumul_99 = none)) :=
  ⟨by norm_num [validCF, isLengthUnit, isFluxUnit, unitDim, ConvolvedFluxes.n_ap],
    c5_radius_verbatim _
      (by norm_num [validCF, isLengthUnit, isFluxUnit, unitDim, ConvolvedFluxes.n_ap])⟩

theorem c2_witness :
    validCF
      { model_names := some ["m1", "m2"]
        apertures := some ⟨[1, 2], .au⟩
        flux := some ⟨[[1, 2], [3, 4]], .mJy⟩
        error := some ⟨[[0, 0], [0, 0]], .mJy⟩ } = true ∧
    (∃ c' buf,
      ConvolvedFluxes.interpolate
        { model_names := some ["m1", "m2"]
          apertures := some ⟨[1, 2], .au⟩
          flux := some ⟨[[1, 2], [3, 4]], .mJy⟩
          error := some ⟨[[0, 0], [0, 0]], .mJy⟩ } ⟨[3], .au⟩ = .ok (c', buf) ∧
      buf.unit = PhysUnit.au ∧
      buf.data.length = ([3] : List ℚ).length ∧
      ∀ j < ([3] : List ℚ).length,
        npMax [1, 2] * uscale PhysUnit.au <
            ([3] : List ℚ).getD j 0 * uscale PhysUnit.au →
          buf.data.getD j 0 * uscale PhysUnit.au =
            npMax [1, 2] * uscale PhysUnit.au) :=
  ⟨by norm_num [validCF, isLengthUnit, isFluxUnit, unitDim, ConvolvedFluxes.n_ap],
    c2_clamp _ ⟨[1, 2], .au⟩ ⟨[3], .au⟩
      (by norm_num [validCF, isLengthUnit, isFluxUnit, unitDim, ConvolvedFluxes.n_ap])
      rfl (by norm_num) rfl (by norm_num)
      ⟨3, by norm_num, by norm_num [npMax, uscale]⟩
      (by
        intro x hx
        rw [List.mem_singleton] at hx
        subst hx
        norm_num [npMin, uscale])⟩

theorem c3_witness :
    validCF
      { model_names := some ["m1", "m2"]
        apertures := some ⟨[1, 2], .au⟩
        flux := some ⟨[[1, 2], [3, 4]], .mJy⟩
        error := some ⟨[[0, 0], [0, 0]], .mJy⟩ } = true ∧
    ConvolvedFluxes.interpolate
      { model_names := some ["m1", "m2"]
        apertures := some ⟨[1, 2], .au⟩
        flux := some ⟨[[1, 2], [3, 4]], .mJy⟩
        error := some ⟨[[0, 0], [0, 0]], .mJy⟩ } ⟨[1 / 2], .au⟩ =
      .error "Aperture(s) requested too small" :=
  ⟨by norm_num [validCF, isLengthUnit, isFluxUnit, unitDim, ConvolvedFluxes.n_ap],
    c3_below_min _ ⟨[1, 2], .au⟩ ⟨[1 / 2], .au⟩
      (by norm_num [validCF, isLengthUnit, isFluxUnit, unitDim, ConvolvedFluxes.n_ap])
      rfl (by norm_num) rfl (by norm_num)
      ⟨1 / 2, by norm_num, by norm_num [npMin, uscale]⟩⟩

theorem c6_witness :
    validCF
      { model_names := some ["m"]
        flux := some ⟨[[5]], .mJy⟩
        error := some ⟨[[1]], .mJy⟩ } = true ∧
    (∃ c' buf,
      ConvolvedFluxes.interpolate
        { model_names := some ["m"]
          flux := some ⟨[[5]], .mJy⟩
          error := some ⟨[[1]], .mJy⟩ } ⟨[1, 2, 3], .au⟩ = .ok (c', buf) ∧
      c'.flux = some ⟨List.map
        (fun r => List.replicate ([1, 2, 3] : List ℚ).length (r.getD 0 0))
        [[5]], .mJy⟩ ∧
      c'.error = some ⟨List.map
        (fun r => List.replicate ([1, 2, 3] : List ℚ).length (r.getD 0 0))
        [[1]], .mJy⟩ ∧
      (∀ qf, c'.flux = some qf → qf.data.length = (["m"] : List String).length ∧
        ∀ i < (["m"] : List String).length, qf.data.getD i [] =
          List.replicate ([1, 2, 3] : List ℚ).length
            ((([[5]] : List (List ℚ)).getD i []).getD 0 0))) :=
  ⟨by norm_num [validCF, isLengthUnit, isFluxUnit, unitDim, ConvolvedFluxes.n_ap],
    c6_broadcast _ ⟨[1, 2, 3], .au⟩ ["m"] ⟨[[5]], .mJy⟩ ⟨[[1]], .mJy⟩
      (by norm_num [validCF, isLengthUnit, isFluxUnit, unitDim, ConvolvedFluxes.n_ap])
      rfl rfl rfl rfl rfl (by norm_num) (by norm_num)⟩

theorem c7_witness :
    validCF
      { model_names := some ["m1", "m2"]
        apertures := some ⟨[1, 2], .au⟩
        flux := some ⟨[[1, 2], [3, 4]], .mJy⟩
        error := some ⟨[[0, 0], [0, 0]], .mJy⟩ } = true ∧
    strictIncrB [1, 2] = true ∧
    (∃ c' buf,
      ConvolvedFluxes.interpolate
        { model_names := some ["m1", "m2"]
          apertures := some ⟨[1, 2], .au⟩
          flux := some ⟨[[1, 2], [3, 4]], .mJy⟩
          error := some ⟨[[0, 0], [0, 0]], .mJy⟩ } ⟨[1, 2], .au⟩ = .ok (c', buf) ∧
      c'.flux = ConvolvedFluxes.flux
        { model_names := some ["m1", "m2"]
          apertures := some ⟨[1, 2], .au⟩
          flux := some ⟨[[1, 2], [3, 4]], .mJy⟩
          error := some ⟨[[0, 0], [0, 0]], .mJy⟩ } ∧
      c'.error = ConvolvedFluxes.error
        { model_names := some ["m1", "m2"]
          apertures := some ⟨[1, 2], .au⟩
          flux := some ⟨[[1, 2], [3, 4]], .mJy⟩
          error := some ⟨[[0, 0], [0, 0]], .mJy⟩ }) :=
  ⟨by norm_num [validCF, isLengthUnit, isFluxUnit, unitDim, ConvolvedFluxes.n_ap],
    by norm_num [strictIncrB, List.range_succ],
    c7_identity _ ⟨[1, 2], .au⟩
      (by norm_num [validCF, isLengthUnit, isFluxUnit, unitDim, ConvolvedFluxes.n_ap])
      rfl (by norm_num) (by norm_num [strictIncrB, List.range_succ])⟩

end Sedfitter
